import Mathlib

/-!
Shallow embedding of the cdrgenerator record-production subsystem:
the format registry, the two protocol encodings (viper and vesta, replay
parsing and synthetic generation), the rate limiter, the replay generator,
the channel production tick and the output manager, together with theorems
settling the specification claims about them.

Conventions of the embedding:
* Go strings are Lean `String`; character-level work goes through `.data`.
* Go `float64` values that only flow through comparisons and `int64`
  truncation are modelled as `ℚ` (every concrete value the claims mention,
  such as `2.5` or `60`, is exactly representable in both).
* Go `math/rand` is modelled by its one property every claim depends on:
  a source is a seed plus a position, and the raw value of each draw is a
  function of the two alone.  That function (`RandStream`) is a parameter
  of every randomized definition, so no theorem depends on the concrete
  pseudo-random algorithm.
* A Go runtime panic (index out of range, integer divide by zero) is a
  distinguished outcome (`none`, or a dedicated constructor), never a value.
-/

/-- Go `unicode.IsSpace` restricted to ASCII whitespace (the only
whitespace characters occurring in this codebase's data). -/
def goIsSpace (c : Char) : Bool :=
  c = ' ' || c = '\t' || c = '\n' || c = '\u000b' || c = '\u000c' || c = '\r'

/-- Character-list core of Go `strings.TrimSpace`: drop whitespace from
both ends. -/
def trimChars (l : List Char) : List Char :=
  ((l.dropWhile goIsSpace).reverse.dropWhile goIsSpace).reverse

/-- Go `strings.TrimSpace`. -/
def goTrimSpace (s : String) : String := ⟨trimChars s.data⟩

/-- Character-list core of Go `strings.HasPrefix`: `charsHasPref s p` is
true when `p` is an initial segment of `s`. -/
def charsHasPref : List Char → List Char → Bool
  | _, [] => true
  | [], _ :: _ => false
  | c :: cs, p :: ps => p = c && charsHasPref cs ps

/-- Go `strings.HasPrefix s p`. -/
def goHasPref (s p : String) : Bool := charsHasPref s.data p.data

/-- Go `strings.ToLower` on the ASCII range (format names and lookups in
this codebase are ASCII). -/
def goToLowerChar (c : Char) : Char :=
  if 'A' ≤ c ∧ c ≤ 'Z' then Char.ofNat (c.toNat + 32) else c

/-- Go `strings.ToLower`. -/
def goToLower (s : String) : String := ⟨s.data.map goToLowerChar⟩

/-- Go `strings.ToUpper` on the ASCII range. -/
def goToUpperChar (c : Char) : Char :=
  if 'a' ≤ c ∧ c ≤ 'z' then Char.ofNat (c.toNat - 32) else c

/-- Go `strings.ToUpper`. -/
def goToUpper (s : String) : String := ⟨s.data.map goToUpperChar⟩

theorem data_append (s t : String) : (s ++ t).data = s.data ++ t.data := rfl

/-! ### The randomness model (Go `math/rand`) -/

/-- A `*rand.Rand` source: fully determined by the seed it was created
from (`rand.New(rand.NewSource(seed))`) and the number of draws already
made from it. -/
structure GoRand where
  seed : Int
  pos : Nat
deriving DecidableEq, Repr

/-- The family of raw draw values: `σ s i` is the `i`-th raw draw of a
source seeded with `s`.  All randomized definitions are parameterized by
such a stream, so theorems hold for every pseudo-random algorithm. -/
def RandStream : Type := Int → Nat → Nat

/-- Consume one raw draw. -/
def randNext (σ : RandStream) (r : GoRand) : Nat × GoRand :=
  (σ r.seed r.pos, { r with pos := r.pos + 1 })

/-- Go `Rand.Intn n` (callers in this codebase only use `n > 0`): a
uniform draw in `[0, n)`, modelled as the raw draw reduced mod `n`. -/
def randIntn (σ : RandStream) (r : GoRand) (n : Nat) : Nat × GoRand :=
  let (v, r') := randNext σ r
  (v % n, r')

/-- Go `Rand.Float32() > 0.3` as used for the viper agent-block coin:
an event of probability 0.7, modelled as a raw draw landing in 7 of 10
residue classes.  Every claim only depends on both outcomes being
reachable, never on the numeric distribution. -/
def randAgentCoin (σ : RandStream) (r : GoRand) : Bool × GoRand :=
  let (v, r') := randNext σ r
  (v % 10 < 7, r')

/-- A raw draw standing in for a Go `Rand.Float64()` call whose value is
only ever rendered into text (never branched on).  The raw `Nat` is kept
and rendered by the caller. -/
def randFloatRaw (σ : RandStream) (r : GoRand) : Nat × GoRand :=
  randNext σ r

/-! ### Durations and the rate limiter -/

/-- Go `time.Duration` is `int64` nanoseconds. -/
abbrev GoDuration := Int

def nanosecond : GoDuration := 1
def millisecondNs : GoDuration := 1000000
def secondNs : GoDuration := 1000000000
def minuteNs : GoDuration := 60000000000

/-- Go `int64(q)` / `time.Duration(q)` conversion from a numeric value:
truncation toward zero. -/
def ratTrunc (q : ℚ) : Int := if q < 0 then ⌈q⌉ else ⌊q⌋

/-- `generator.RateLimiter`: target rate and jitter bound (the `random`
field is the ambient stream parameter). -/
structure RateLimiter where
  callsPerMinute : ℚ
  jitterPercent : ℚ
deriving DecidableEq, Repr

/-- `RateLimiter.NextInterval`.  `u` is the `Float64()` draw in `[0,1)`
consumed only on the jitter path.  `none` models the Go runtime panic
`integer divide by zero`, which is reached exactly when
`time.Duration(r.callsPerMinute)` truncates to zero. -/
def RateLimiter.NextInterval (r : RateLimiter) (u : ℚ) : Option GoDuration :=
  if r.callsPerMinute ≤ 0 then
    some minuteNs
  else
    let d : Int := ratTrunc r.callsPerMinute
    if d = 0 then
      none
    else
      let baseInterval : Int := minuteNs.tdiv d
      if 0 < r.jitterPercent then
        let jitterFactor : ℚ := (u * 2 - 1) * (r.jitterPercent / 100)
        let jitterAmount : Int := ratTrunc ((baseInterval : ℚ) * jitterFactor)
        some (baseInterval + jitterAmount)
      else
        some baseInterval

theorem ratTrunc_of_nonneg (q : ℚ) (h : 0 ≤ q) : ratTrunc q = ⌊q⌋ := by
  unfold ratTrunc
  rw [if_neg (not_lt.mpr h)]

theorem ratTrunc_pos_of_one_le (q : ℚ) (h : 1 ≤ q) : 0 < ratTrunc q := by
  rw [ratTrunc_of_nonneg q (le_trans zero_le_one h)]
  exact_mod_cast Int.le_floor.mpr (by exact_mod_cast h)

theorem ratTrunc_eq_zero_of_lt_one (q : ℚ) (h0 : 0 < q) (h1 : q < 1) :
    ratTrunc q = 0 := by
  rw [ratTrunc_of_nonneg q (le_of_lt h0)]
  exact Int.floor_eq_zero_iff.mpr ⟨by exact_mod_cast le_of_lt h0, by exact_mod_cast h1⟩

theorem NextInterval_of_one_le (r : RateLimiter) (u : ℚ)
    (h1 : 1 ≤ r.callsPerMinute) (hj : r.jitterPercent ≤ 0) :
    r.NextInterval u = some (minuteNs.tdiv (ratTrunc r.callsPerMinute)) := by
  unfold RateLimiter.NextInterval
  rw [if_neg (not_le.mpr (lt_of_lt_of_le one_pos h1)),
    if_neg (ne_of_gt (ratTrunc_pos_of_one_le _ h1)),
    if_neg (not_lt.mpr hj)]

theorem ratTrunc_sixty : ratTrunc (60 : ℚ) = 60 := by
  rw [ratTrunc_of_nonneg _ (by norm_num)]
  norm_num

/-- C3, counterexample.  At the concrete rate `r = 5/2` with jitter `0`,
`NextInterval` returns 30 seconds (one minute divided by the integer
truncation of `r`), while one minute divided by `r` itself is 24 seconds:
the claim "returns exactly the base interval of one minute divided by r"
is false at `r = 5/2`. -/
theorem c3_rate_truncation_counterexample :
    RateLimiter.NextInterval ⟨5 / 2, 0⟩ 0 = some 30000000000 ∧
    ((minuteNs : ℚ) / (5 / 2 : ℚ) = 24000000000 ∧
      (30000000000 : Int) ≠ 24000000000) := by
  constructor
  · rw [NextInterval_of_one_le ⟨5 / 2, 0⟩ 0 (by norm_num) le_rfl]
    have htr : ratTrunc ((⟨5 / 2, 0⟩ : RateLimiter).callsPerMinute) = 2 := by
      show ratTrunc (5 / 2 : ℚ) = 2
      rw [ratTrunc_of_nonneg _ (by norm_num)]
      rw [Int.floor_eq_iff]
      norm_num
    rw [htr]
    decide
  · constructor
    · show (60000000000 : ℚ) / (5 / 2 : ℚ) = 24000000000
      norm_num
    · decide

/-- C3, amended: if the rate is `≤ 0`, `NextInterval` returns the fixed
default interval of one minute; if the rate is `≥ 1` and jitter is not
positive, it returns one minute divided by the *integer truncation* of
the rate (`time.Duration(r.callsPerMinute)`), in particular exactly one
second on every call for rate 60.  (For rates in `(0,1)` the divisor
truncates to zero; see the C10 theorem.) -/
theorem c3_pacing_interval (r : RateLimiter) (u : ℚ) :
    (r.callsPerMinute ≤ 0 → r.NextInterval u = some minuteNs) ∧
    (1 ≤ r.callsPerMinute → r.jitterPercent ≤ 0 →
      r.NextInterval u = some (minuteNs.tdiv (ratTrunc r.callsPerMinute))) ∧
    (r.callsPerMinute = 60 → r.jitterPercent ≤ 0 →
      r.NextInterval u = some secondNs) := by
  refine ⟨fun h => ?_, fun h1 hj => NextInterval_of_one_le r u h1 hj,
    fun h60 hj => ?_⟩
  · unfold RateLimiter.NextInterval
    rw [if_pos h]
  · rw [NextInterval_of_one_le r u (by rw [h60]; norm_num) hj, h60, ratTrunc_sixty]
    decide

/-- Witness for `c3_pacing_interval` at rate 60, jitter 0. -/
theorem c3_pacing_interval_witness :
    RateLimiter.NextInterval ⟨60, 0⟩ 0 = some secondNs :=
  (c3_pacing_interval ⟨60, 0⟩ 0).2.2 rfl le_rfl

/-- C10: the divisor in `NextInterval`'s base-interval computation is
nonzero exactly when the rate is outside `(0,1)`: for every rate `≤ 0`
or `≥ 1` the call returns a value (no division by zero), while for every
rate strictly between 0 and 1 the `r ≤ 0` guard does not fire, the
divisor `time.Duration(r.callsPerMinute)` truncates to zero, and the
call hits the division-by-zero panic (modelled as `none`). -/
theorem c10_next_interval_divide_by_zero (r : RateLimiter) (u : ℚ) :
    ((r.callsPerMinute ≤ 0 ∨ 1 ≤ r.callsPerMinute) → (r.NextInterval u).isSome) ∧
    (0 < r.callsPerMinute → r.callsPerMinute < 1 → r.NextInterval u = none) := by
  constructor
  · rintro (h | h)
    · unfold RateLimiter.NextInterval
      rw [if_pos h]
      rfl
    · unfold RateLimiter.NextInterval
      rw [if_neg (not_le.mpr (lt_of_lt_of_le one_pos h)),
        if_neg (ne_of_gt (ratTrunc_pos_of_one_le _ h))]
      by_cases hjit : 0 < r.jitterPercent
      · rw [if_pos hjit]; rfl
      · rw [if_neg hjit]; rfl
  · intro h0 h1
    unfold RateLimiter.NextInterval
    rw [if_neg (not_le.mpr h0), if_pos (ratTrunc_eq_zero_of_lt_one _ h0 h1)]

/-- Witness for `c10_next_interval_divide_by_zero`: total at rate 2,
panicking at rate 1/2. -/
theorem c10_next_interval_divide_by_zero_witness :
    (RateLimiter.NextInterval ⟨2, 0⟩ 0).isSome ∧
    RateLimiter.NextInterval ⟨1 / 2, 0⟩ 0 = none :=
  ⟨(c10_next_interval_divide_by_zero ⟨2, 0⟩ 0).1 (Or.inr (by norm_num)),
    (c10_next_interval_divide_by_zero ⟨1 / 2, 0⟩ 0).2 (by norm_num) (by norm_num)⟩

/-! ### Time values -/

/-- Go `time.Time`, reduced to the calendar fields this codebase renders.
The zero value is Go's zero time (January 1, year 1, 00:00:00). -/
structure GoTime where
  year : Nat := 1
  month : Nat := 1
  day : Nat := 1
  hour : Nat := 0
  minute : Nat := 0
  second : Nat := 0
  millis : Nat := 0
  zone : String := "UTC"
deriving DecidableEq, Repr

/-- Go `Time.IsZero`. -/
def GoTime.isZero (t : GoTime) : Bool := t = {}

/-! ### The format contract (`format` package) -/

/-- `format.CDRRecord`.  The parser never sets `Duration`, leaving the
zero value. -/
structure CDRRecord where
  id : String
  type : String
  timestamp : GoTime
  duration : GoDuration := 0
  lines : List String
deriving DecidableEq, Repr

/-- `format.Agent`. -/
structure Agent where
  id : String
  name : String
  role : String
deriving DecidableEq, Repr

/-- `format.Location`.  The three numeric fields are Go `float64`,
modelled as `ℚ`: they are only ever rendered into text. -/
structure Location where
  address : String
  city : String
  state : String
  township : String
  esn : String
  latitude : ℚ
  longitude : ℚ
  altitude : ℚ
deriving DecidableEq, Repr

/-- `format.Carrier`. -/
structure Carrier where
  code : String
  name : String
  type : String
deriving DecidableEq, Repr

/-- The two concrete `format.CDRFormat` implementations linked into the
binary (`vesta.VestaFormat`, `viper.ViperFormat`).  Both are stateless,
so a registry value is its identity. -/
inductive FormatKind where
  | vesta
  | viper
deriving DecidableEq, Repr

/-- `CDRFormat.Name` of each implementation. -/
def FormatKind.name : FormatKind → String
  | .vesta => "vesta"
  | .viper => "viper"

/-- `CDRFormat.Description` of each implementation. -/
def FormatKind.description : FormatKind → String
  | .vesta => "Vesta 911 Call Handling System"
  | .viper => "Viper 911 CDR format"

/-! ### The format registry (`format/registry.go`) -/

/-- The process-wide `registry` map.  A Go map from string to format;
modelled as an association list with unique keys (uniqueness is enforced
by `Register` itself).  Iteration order never matters: the only
enumeration, `List`, sorts its output. -/
abbrev Registry := List (String × FormatKind)

/-- Lookup `registry[name]`. -/
def registryLookup (reg : Registry) (name : String) : Option FormatKind :=
  (reg.find? (fun e => e.1 = name)).map Prod.snd

/-- `format.Register`: returns the updated registry and the error, if
any.  On a duplicate lowercase name the registry is returned unchanged
together with the `already registered` error. -/
def registryRegister (reg : Registry) (f : FormatKind) : Registry × Option String :=
  let name := goToLower f.name
  match registryLookup reg name with
  | some _ => (reg, some ("format \"" ++ name ++ "\" already registered"))
  | none => (reg ++ [(name, f)], none)

/-- `format.Get`: case-insensitive lookup. -/
def registryGet (reg : Registry) (name : String) : Except String FormatKind :=
  match registryLookup reg (goToLower name) with
  | some f => .ok f
  | none => .error ("unknown format: " ++ name)

/-- Byte-wise lexicographic `≤` on character lists; Go's `sort.Strings`
order (UTF-8 byte order coincides with code-point order). -/
def lexLeChars : List Char → List Char → Bool
  | [], _ => true
  | _ :: _, [] => false
  | a :: as, b :: bs => if a < b then true else if b < a then false else lexLeChars as bs

/-- Go `sort.Strings` order on strings. -/
def goStrLe (s t : String) : Bool := lexLeChars s.data t.data

theorem lexLeChars_total : ∀ as bs, (lexLeChars as bs || lexLeChars bs as) = true := by
  intro as
  induction as with
  | nil => intro bs; simp [lexLeChars]
  | cons a as ih =>
    intro bs
    cases bs with
    | nil => simp [lexLeChars]
    | cons b bs =>
      simp only [lexLeChars]
      rcases lt_trichotomy a b with h | h | h
      · simp [h]
      · subst h
        simp only [lt_irrefl, if_neg (lt_irrefl a).elim]
        simpa using ih bs
      · simp [h, not_lt.mpr (le_of_lt h)]

theorem lexLeChars_trans : ∀ as bs cs, lexLeChars as bs = true →
    lexLeChars bs cs = true → lexLeChars as cs = true := by
  intro as
  induction as with
  | nil => intro bs cs _ _; simp [lexLeChars]
  | cons a as ih =>
    intro bs cs hab hbc
    cases bs with
    | nil => simp [lexLeChars] at hab
    | cons b bs =>
      cases cs with
      | nil => simp [lexLeChars] at hbc
      | cons c cs =>
        simp only [lexLeChars] at hab hbc ⊢
        rcases lt_trichotomy a b with h1 | h1 | h1
        · rcases lt_trichotomy b c with h2 | h2 | h2
          · simp [lt_trans h1 h2]
          · subst h2; simp [h1]
          · exfalso
            simp [not_lt.mpr (le_of_lt h2), h2] at hbc
        · subst h1
          rcases lt_trichotomy a c with h2 | h2 | h2
          · simp [h2]
          · subst h2
            simp only [lt_irrefl, if_false, if_neg (lt_irrefl a)] at hab hbc ⊢
            exact ih bs cs hab hbc
          · exfalso
            simp [not_lt.mpr (le_of_lt h2), h2] at hbc
        · exfalso
          simp [not_lt.mpr (le_of_lt h1), h1] at hab

/-- Go `sort.Strings`.  Go's sort is an unstable comparison sort, but on
string keys its output is fully determined (equal keys are identical
values), so any correct sorting algorithm is extensionally the same
function; insertion sort is used here. -/
def sortStrings (l : List String) : List String :=
  l.insertionSort (fun a b => goStrLe a b = true)

/-- `format.List`: all registered names, sorted. -/
def registryList (reg : Registry) : List String :=
  sortStrings (reg.map Prod.fst)

/-- `format.Count`. -/
def registryCount (reg : Registry) : Nat := reg.length

theorem sortStrings_perm (l : List String) : (sortStrings l).Perm l :=
  List.perm_insertionSort _ l

theorem sortStrings_pairwise (l : List String) :
    List.Pairwise (fun a b => goStrLe a b = true) (sortStrings l) := by
  haveI : IsTotal String (fun a b => goStrLe a b = true) :=
    ⟨fun a b => by
      have := lexLeChars_total a.data b.data
      rcases Bool.or_eq_true_iff.mp this with h | h
      · exact Or.inl h
      · exact Or.inr h⟩
  haveI : IsTrans String (fun a b => goStrLe a b = true) :=
    ⟨fun a b c hab hbc => lexLeChars_trans a.data b.data c.data hab hbc⟩
  exact List.sorted_insertionSort _ l

/-- C6: `Register` fails with the duplicate-name error exactly when the
lowercase of the new format's name is already a key (and then leaves the
registry unchanged; otherwise it appends the lowercased name); `Get` is
case-insensitive — two names with the same lowercasing yield the same
registered instance — and fails exactly when the lowercase name is
absent; `List` returns a permutation of all registered names in
`sort.Strings` (lexicographic) order. -/
theorem c6_registry_semantics (reg : Registry) (f g : FormatKind)
    (n₁ n₂ nabs : String) (hn : goToLower n₁ = goToLower n₂) :
    ((registryRegister reg f).2.isSome ↔
      (registryLookup reg (goToLower f.name)).isSome) ∧
    ((registryRegister reg f).2.isSome → (registryRegister reg f).1 = reg) ∧
    ((registryRegister reg f).2 = none →
      (registryRegister reg f).1 = reg ++ [(goToLower f.name, f)]) ∧
    (registryGet reg n₁ = .ok g ↔ registryGet reg n₂ = .ok g) ∧
    ((registryGet reg nabs).isOk ↔ (registryLookup reg (goToLower nabs)).isSome) ∧
    (registryList reg).Perm (reg.map Prod.fst) ∧
    List.Pairwise (fun a b => goStrLe a b = true) (registryList reg) := by
  refine ⟨?_, ?_, ?_, ?_, ?_, sortStrings_perm _, sortStrings_pairwise _⟩
  · unfold registryRegister
    rcases hl : registryLookup reg (goToLower f.name) with _ | v <;> simp [hl]
  · unfold registryRegister
    rcases hl : registryLookup reg (goToLower f.name) with _ | v <;> simp [hl]
  · unfold registryRegister
    rcases hl : registryLookup reg (goToLower f.name) with _ | v <;> simp [hl]
  · unfold registryGet
    rw [hn]
    rcases hl : registryLookup reg (goToLower n₂) with _ | v <;> simp [hl]
  · unfold registryGet
    rcases hl : registryLookup reg (goToLower nabs) with _ | v <;>
      simp [hl, Except.isOk, Except.toBool]

/-- Witness for `c6_registry_semantics` on the spec's own example: with
`vesta` and `viper` registered, re-registering the `vesta` format fails
and leaves the registry unchanged; `Get "VESTA"` succeeds exactly like
`Get "vesta"` (same instance); `Get` of an unknown name fails; `List`
of the `viper`-first registry is `["vesta", "viper"]`. -/
theorem c6_registry_semantics_witness :
    (registryRegister [("vesta", .vesta), ("viper", .viper)] .vesta).2.isSome = true ∧
    (registryRegister [("vesta", .vesta), ("viper", .viper)] .vesta).1 =
      [("vesta", .vesta), ("viper", .viper)] ∧
    registryGet [("vesta", .vesta), ("viper", .viper)] "VESTA" = .ok .vesta ∧
    (registryGet [("vesta", .vesta), ("viper", .viper)] "nope").isOk = false ∧
    registryList [("viper", .viper), ("vesta", .vesta)] = ["vesta", "viper"] := by
  have h := c6_registry_semantics [("vesta", .vesta), ("viper", .viper)]
    .vesta .vesta "VESTA" "vesta" "nope" (by decide)
  refine ⟨h.1.mpr (by decide), h.2.1 (h.1.mpr (by decide)), ?_, ?_, by decide⟩
  · exact h.2.2.2.1.mpr rfl
  · have habs := h.2.2.2.2.1
    rw [show (registryLookup [("vesta", FormatKind.vesta), ("viper", FormatKind.viper)]
      (goToLower "nope")).isSome = false from by decide] at habs
    simp at habs
    exact habs

/-! ### Fixed-width decimal rendering (Go `fmt` zero-padded verbs) -/

/-- Go `%02d` for the non-negative values this codebase renders. -/
def pad2 (n : Nat) : String := if n < 10 then "0" ++ toString n else toString n

/-- Go `%03d` for non-negative values. -/
def pad3 (n : Nat) : String :=
  if n < 10 then "00" ++ toString n
  else if n < 100 then "0" ++ toString n
  else toString n

/-- Go `%04d` for non-negative values. -/
def pad4 (n : Nat) : String :=
  if n < 10 then "000" ++ toString n
  else if n < 100 then "00" ++ toString n
  else if n < 1000 then "0" ++ toString n
  else toString n

/-- Go `%05d` for non-negative values. -/
def pad5 (n : Nat) : String :=
  if n < 10 then "0000" ++ toString n
  else if n < 100 then "000" ++ toString n
  else if n < 1000 then "00" ++ toString n
  else if n < 10000 then "0" ++ toString n
  else toString n

/-- Stand-in rendering for a Go `float64`-formatted fragment (`%.2f`,
`%010.6f`, …).  Exact floating-point formatting is out of scope; no
claim depends on the text of these fragments, only on where in a line
they appear, and every theorem in this file holds for arbitrary text in
those positions. -/
def floatText (q : ℚ) : String := toString q.num ++ "r" ++ toString q.den

/-! ### Configuration (`config` package, claim-relevant fields) -/

/-- `config.SyntheticConfig`. -/
structure SyntheticConfig where
  systemID : String := ""
  agentCount : Int := 0
  minDurationSec : Int := 0
  maxDurationSec : Int := 0
  includeAgentEvents : Bool := false
deriving DecidableEq, Repr

/-- `config.PortConfig`.  Defaults are the Go zero values. -/
structure PortConfig where
  device : String := ""
  baudRate : Int := 0
  dataBits : Int := 0
  stopBits : Int := 0
  parity : String := ""
  format : String := ""
  mode : String := ""
  sampleFile : String := ""
  loop : Bool := false
  callsPerMinute : ℚ := 0
  enabled : Bool := false
  description : String := ""
  synthetic : Option SyntheticConfig := none
deriving DecidableEq, Repr

/-! ### The generation context (`format` package) -/

/-- `format.defaultAgents`. -/
def defaultAgents : List Agent :=
  [⟨"10001", "John Smith", "CALL TAKER"⟩,
   ⟨"10002", "Jane Doe", "CALL TAKER"⟩,
   ⟨"10003", "Mike Johnson", "CALL TAKER"⟩,
   ⟨"10004", "Sarah Williams", "CALL TAKER"⟩,
   ⟨"10005", "David Brown", "DISPATCHER"⟩,
   ⟨"10006", "Emily Davis", "DISPATCHER"⟩,
   ⟨"10007", "Chris Wilson", "CALL TAKER"⟩,
   ⟨"10008", "Amanda Miller", "CALL TAKER"⟩,
   ⟨"10009", "Robert Taylor", "SUPERVISOR"⟩,
   ⟨"10010", "Lisa Anderson", "CALL TAKER"⟩]

/-- `format.defaultLocations`. -/
def defaultLocations : List Location :=
  [⟨"123 Main St", "Lincoln", "NE", "Lancaster", "123456", 408136/10000, -967026/10000, 357⟩,
   ⟨"456 Oak Ave", "Omaha", "NE", "Douglas", "234567", 412565/10000, -959345/10000, 332⟩,
   ⟨"789 Elm Blvd", "Bellevue", "NE", "Sarpy", "345678", 411544/10000, -959146/10000, 305⟩,
   ⟨"321 Pine Rd", "Grand Island", "NE", "Hall", "456789", 409264/10000, -983420/10000, 566⟩,
   ⟨"654 Cedar Ln", "Kearney", "NE", "Buffalo", "567890", 406993/10000, -990817/10000, 652⟩,
   ⟨"987 Maple Dr", "Fremont", "NE", "Dodge", "678901", 414333/10000, -964981/10000, 373⟩,
   ⟨"147 Birch Way", "Hastings", "NE", "Adams", "789012", 405861/10000, -983884/10000, 595⟩,
   ⟨"258 Walnut Ct", "Norfolk", "NE", "Madison", "890123", 420283/10000, -974170/10000, 476⟩,
   ⟨"369 Spruce Pl", "Columbus", "NE", "Platte", "901234", 414297/10000, -973684/10000, 436⟩,
   ⟨"480 Ash St", "Papillion", "NE", "Sarpy", "012345", 411544/10000, -960419/10000, 329⟩]

/-- `format.defaultCarriers`. -/
def defaultCarriers : List Carrier :=
  [⟨"VZW", "VERIZON", "WPH2"⟩,
   ⟨"TMOB", "T-MOBILE USA, INC.", "WPH2"⟩,
   ⟨"ATTMO", "AT&T Mobility", "WPH2"⟩,
   ⟨"SPRINT", "SPRINT", "WPH2"⟩,
   ⟨"USCC", "US CELLULAR", "WPH2"⟩]

/-- `format.GenerationContext`. -/
structure GenerationContext where
  systemID : String
  psapName : String
  agentPool : List Agent
  locationPool : List Location
  carrierPool : List Carrier
  currentTime : GoTime
  callNumber : Int
  random : GoRand
deriving DecidableEq, Repr

/-- `format.NewGenerationContext`.  `now` is the `time.Now()` reading at
construction time. -/
def NewGenerationContext (systemID psapName : String) (seed : Int)
    (now : GoTime) : GenerationContext :=
  { systemID := systemID
    psapName := psapName
    agentPool := defaultAgents
    locationPool := defaultLocations
    carrierPool := defaultCarriers
    currentTime := now
    callNumber := 10000000
    random := ⟨seed, 0⟩ }

/-- `GenerationContext.RandomAgent`.  The pools are the non-empty
defaults at every call site (the constructor installs them and nothing
mutates them), so the `getD` default is unreachable. -/
def GenerationContext.RandomAgent (σ : RandStream) (ctx : GenerationContext) :
    Agent × GenerationContext :=
  let (i, r') := randIntn σ ctx.random ctx.agentPool.length
  (ctx.agentPool.getD i ⟨"", "", ""⟩, { ctx with random := r' })

/-- `GenerationContext.RandomLocation`. -/
def GenerationContext.RandomLocation (σ : RandStream) (ctx : GenerationContext) :
    Location × GenerationContext :=
  let (i, r') := randIntn σ ctx.random ctx.locationPool.length
  (ctx.locationPool.getD i ⟨"", "", "", "", "", 0, 0, 0⟩, { ctx with random := r' })

/-- `GenerationContext.RandomCarrier`. -/
def GenerationContext.RandomCarrier (σ : RandStream) (ctx : GenerationContext) :
    Carrier × GenerationContext :=
  let (i, r') := randIntn σ ctx.random ctx.carrierPool.length
  (ctx.carrierPool.getD i ⟨"", "", ""⟩, { ctx with random := r' })

/-- `format.formatPhone`: `%03d%03d%04d`. -/
def formatPhone (areaCode exchange subscriber : Nat) : String :=
  pad3 areaCode ++ pad3 exchange ++ pad4 subscriber

/-- `GenerationContext.RandomPhoneNumber`. -/
def GenerationContext.RandomPhoneNumber (σ : RandStream)
    (ctx : GenerationContext) : String × GenerationContext :=
  let (a, r1) := randIntn σ ctx.random 800
  let (e, r2) := randIntn σ r1 800
  let (s, r3) := randIntn σ r2 10000
  (formatPhone (200 + a) (200 + e) s, { ctx with random := r3 })

/-- `GenerationContext.RandomDuration`: `minSec` seconds when
`maxSec ≤ minSec`, otherwise `minSec + Intn(maxSec-minSec)` seconds. -/
def GenerationContext.RandomDuration (σ : RandStream) (ctx : GenerationContext)
    (minSec maxSec : Int) : GoDuration × GenerationContext :=
  if maxSec ≤ minSec then
    (minSec * secondNs, ctx)
  else
    let (v, r') := randIntn σ ctx.random (maxSec - minSec).toNat
    ((minSec + (v : Int)) * secondNs, { ctx with random := r' })

/-- `GenerationContext.NextCallNumber`. -/
def GenerationContext.NextCallNumber (ctx : GenerationContext) :
    Int × GenerationContext :=
  (ctx.callNumber + 1, { ctx with callNumber := ctx.callNumber + 1 })

/-! ### The generator (`generator/generator.go`) -/

/-- `generator.Generator`.  `genContext` is the nil-able pointer field;
`records`/`recordIndex`/`loop` are the replay-mode state. -/
structure Generator where
  format : FormatKind
  mode : String
  portConfig : PortConfig := {}
  rateLimiter : RateLimiter
  genContext : Option GenerationContext := none
  records : List CDRRecord := []
  recordIndex : Nat := 0
  loop : Bool := false
deriving DecidableEq, Repr

/-- Outcome of one `Generator.nextReplayRecord` call.  `indexOutOfRange`
models the Go runtime panic raised by `g.records[g.recordIndex]` when
the cursor is at or past the end of the slice. -/
inductive GenResult where
  | ok (record : CDRRecord) (g : Generator)
  | fail (msg : String) (g : Generator)
  | indexOutOfRange
deriving DecidableEq, Repr

/-- `Generator.nextReplayRecord`, statement by statement: empty-slice
check, read at the cursor, increment, then the loop/exhaustion check.
Note the error return happens on the call that reads the *last* record
(the increment has already run, so the cursor is left equal to the
length, and that record is discarded). -/
def Generator.nextReplayRecord (g : Generator) : GenResult :=
  if g.records.length = 0 then
    .fail "no records available" g
  else if h : g.recordIndex < g.records.length then
    let record := g.records.get ⟨g.recordIndex, h⟩
    let g' := { g with recordIndex := g.recordIndex + 1 }
    if g.records.length ≤ g'.recordIndex then
      if g.loop then
        .ok record { g' with recordIndex := 0 }
      else
        .fail "end of sample file reached" g'
    else
      .ok record g'
  else
    .indexOutOfRange

/-- The outcome of the `(n+1)`-th consecutive `nextReplayRecord` call
starting from `g` (calls continue on both success and failure, as the
channel production loop does; a panic outcome is absorbing). -/
def replayRun (g : Generator) : Nat → GenResult
  | 0 => g.nextReplayRecord
  | n + 1 =>
    match replayRun g n with
    | .ok _ g' => g'.nextReplayRecord
    | .fail _ g' => g'.nextReplayRecord
    | .indexOutOfRange => .indexOutOfRange

/-- Two concrete replay records for evaluating the generator. -/
def recA : CDRRecord := { id := "A", type := "cdr", timestamp := {}, lines := ["a1", "a2"] }

def recB : CDRRecord := { id := "B", type := "cdr", timestamp := {}, lines := ["b1"] }

/-- A replay generator loaded with two records, looping disabled, as
`loadSampleFile` leaves it (cursor 0). -/
def c1ReplayGen : Generator :=
  { format := .vesta, mode := "replay", rateLimiter := ⟨1, 0⟩,
    records := [recA, recB], recordIndex := 0, loop := false }

/-- C1, evaluated at the failing input: a replay generator loaded with
`N = 2` records and looping disabled returns only the first record; the
second call — which the claim says must still succeed and return the
second record — reads it but returns the end-of-sample error instead,
leaving the cursor at 2; and the third call indexes `records[2]`, a Go
index-out-of-range panic, rather than failing with an end-of-sample
error. -/
theorem c1_replay_off_by_one_eval :
    replayRun c1ReplayGen 0 = .ok recA { c1ReplayGen with recordIndex := 1 } ∧
    replayRun c1ReplayGen 1 =
      .fail "end of sample file reached" { c1ReplayGen with recordIndex := 2 } ∧
    replayRun c1ReplayGen 2 = .indexOutOfRange := by
  refine ⟨rfl, rfl, rfl⟩

/-! ### Integer parsing (Go `strconv.ParseInt(s, 10, 64)`) -/

def digitVal (c : Char) : Option Nat :=
  if '0' ≤ c ∧ c ≤ '9' then some (c.toNat - '0'.toNat) else none

def parseDigitsAux : List Char → Nat → Option Nat
  | [], acc => some acc
  | c :: cs, acc =>
    match digitVal c with
    | some d => parseDigitsAux cs (acc * 10 + d)
    | none => none

/-- All-digit parse of a non-empty character list. -/
def parseDigits : List Char → Option Nat
  | [] => none
  | l => parseDigitsAux l 0

/-- Go `strconv.ParseInt(s, 10, 64)`: optional sign, at least one digit,
no other characters, result within `int64` range. -/
def goParseInt64 (s : String) : Option Int :=
  let signed : List Char → Bool → Option Int := fun l neg =>
    match parseDigits l with
    | some n =>
      let v : Int := if neg then -(n : Int) else (n : Int)
      if -(2 ^ 63) ≤ v ∧ v ≤ 2 ^ 63 - 1 then some v else none
    | none => none
  match s.data with
  | '+' :: rest => signed rest false
  | '-' :: rest => signed rest true
  | l => signed l false

/-! ### Substring search (Go `strings.Index` / `strings.Contains`) -/

/-- First index at which `pat` occurs in the list (`none` when absent;
Go returns `-1` there).  Lengths and offsets are in characters, which
coincides with Go's bytes on the ASCII data of this codebase. -/
def listIndexOfSub (pat : List Char) : List Char → Option Nat
  | [] => if charsHasPref [] pat then some 0 else none
  | c :: rest =>
    if charsHasPref (c :: rest) pat then some 0
    else (listIndexOfSub pat rest).map (· + 1)

/-! ### Raw CSV rows and sysident filtering (shared shape of both parsers) -/

/-- One `(sysident, message)` message row after integer parsing. -/
structure LogMessage where
  sysIdent : Int
  message : String
deriving DecidableEq, Repr

/-- The header skip: `if i == 0 && record[0] == "sysident" { continue }`. -/
def stripHeader (rows : List (String × String)) : List (String × String) :=
  match rows with
  | r :: rest => if r.1 = "sysident" then rest else rows
  | [] => []

/-- Header skip plus dropping every row whose sequence id fails to parse. -/
def rowsToMessages (rows : List (String × String)) : List LogMessage :=
  (stripHeader rows).filterMap
    (fun r => (goParseInt64 r.1).map (fun v => ⟨v, r.2⟩))

/-- `sort.Slice(messages, ...)` ascending by sysident.  Go's sort is
unstable, so on rows with duplicate sysidents the source order is
unspecified; insertion sort is one valid refinement (and the claims
never depend on tie order). -/
def sortMessages (msgs : List LogMessage) : List LogMessage :=
  msgs.insertionSort (fun a b => a.sysIdent ≤ b.sysIdent)

/-! ### The viper parser (`format/viper/parser.go`) -/

def ViperCDRBegin : String := "===== CDR BEGIN :"
def ViperCDREnd : String := "===== CDR END ====="
def ViperAgentBegin : String := "===== AGENT BEGIN :"
def ViperAgentEnd : String := "===== AGENT END ====="

/-- `viper.extractCallID` (BEGIN lines carry no id). -/
def extractCallID (_line : String) : String := ""

/-- The in-block id extraction from an `Incoming Call(ID: ...)` line:
executed only while `currentID` is still empty; takes the text between
the first occurrence of the pattern and the next `)`, trimmed, and only
when that text is non-empty (`end > 0`). -/
def extractIncomingCallID (currentID msg : String) : String :=
  let pat := "Incoming Call(ID:"
  if currentID = "" then
    match listIndexOfSub pat.data msg.data with
    | some start =>
      let rest := msg.data.drop (start + pat.data.length)
      match listIndexOfSub [')'] rest with
      | some e => if 0 < e then ⟨trimChars (rest.take e)⟩ else currentID
      | none => currentID
    | none => currentID
  else currentID

/-- The viper grouping-loop state (`records`, `currentLines`,
`currentID`, `currentType`, `inBlock`). -/
structure ViperParseState where
  records : List CDRRecord := []
  currentLines : List String := []
  currentID : String := ""
  currentType : String := ""
  inBlock : Bool := false
deriving DecidableEq, Repr

/-- One iteration of the viper grouping loop. -/
def viperStep (now : GoTime) (st : ViperParseState) (msg : String) : ViperParseState :=
  let trimmed := goTrimSpace msg
  if goHasPref trimmed ViperCDRBegin then
    let st' :=
      if st.inBlock ∧ st.currentLines ≠ [] then
        { st with records := st.records ++
            [{ id := st.currentID, type := st.currentType, timestamp := now,
               lines := st.currentLines }] }
      else st
    { st' with
      currentLines := [trimmed]
      currentType := "cdr"
      currentID := extractCallID trimmed
      inBlock := true }
  else if goHasPref trimmed ViperAgentBegin then
    let st' :=
      if st.inBlock ∧ st.currentLines ≠ [] then
        { st with records := st.records ++
            [{ id := st.currentID, type := st.currentType, timestamp := now,
               lines := st.currentLines }] }
      else st
    { st' with
      currentLines := [trimmed]
      currentType := "agent"
      currentID := ""
      inBlock := true }
  else if trimmed = ViperCDREnd ∨ trimmed = ViperAgentEnd then
    if st.inBlock then
      { records := st.records ++
          [{ id := st.currentID, type := st.currentType, timestamp := now,
             lines := st.currentLines ++ [trimmed] }],
        currentLines := [], currentID := "", currentType := "", inBlock := false }
    else st
  else if st.inBlock ∧ trimmed ≠ "" then
    { st with
      currentLines := st.currentLines ++ [msg]
      currentID := extractIncomingCallID st.currentID msg }
  else st

/-- The trailing flush: a dangling open block is still emitted. -/
def viperFlush (now : GoTime) (st : ViperParseState) : List CDRRecord :=
  if st.inBlock ∧ st.currentLines ≠ [] then
    st.records ++
      [{ id := st.currentID, type := st.currentType, timestamp := now,
         lines := st.currentLines }]
  else st.records

/-- The viper grouping loop over an already-sorted message stream. -/
def viperSegment (now : GoTime) (msgs : List String) : List CDRRecord :=
  viperFlush now (msgs.foldl (viperStep now) {})

/-- `viper.ParseViperCSV` on the rows delivered by `csv.ReadAll` (the
reader's own I/O or quoting errors are the caller's concern; after a
successful read this function is total).  `now` is the `time.Now()`
reading used for every record timestamp. -/
def ParseViperCSV (now : GoTime) (rows : List (String × String)) : List CDRRecord :=
  viperSegment now ((sortMessages (rowsToMessages rows)).map LogMessage.message)

/-! ### The vesta parser (`format/vesta/parser.go`) -/

def VestaSeparator : String :=
  "---   ---   ---   ---   ---   ---   ---   ---   ---   ---   ---   ---   ---"

/-- Go `strings.Fields` (split on whitespace runs). -/
def fieldsAux : List Char → List Char → List (List Char)
  | [], cur => if cur = [] then [] else [cur.reverse]
  | c :: cs, cur =>
    if goIsSpace c then
      if cur = [] then fieldsAux cs []
      else cur.reverse :: fieldsAux cs []
    else fieldsAux cs (c :: cur)

def goFields (s : String) : List String := (fieldsAux s.data []).map String.mk

/-- The scan `for i, part := range parts` looking for a `"Call"` field
with a successor field (the first hit wins via `break`). -/
def callIdFromFields : List String → Option String
  | [] => none
  | f :: rest =>
    match rest with
    | next :: _ => if f = "Call" then some next else callIdFromFields rest
    | [] => none

/-- The vesta call-id extraction from a `Call ... Arrives On` line. -/
def extractVestaCallID (currentID msg : String) : String :=
  if (listIndexOfSub "Call ".data msg.data).isSome ∧
      (listIndexOfSub "Arrives On".data msg.data).isSome then
    match callIdFromFields (goFields msg) with
    | some v => v
    | none => currentID
  else currentID

/-- The vesta grouping-loop state. -/
structure VestaParseState where
  records : List CDRRecord := []
  currentLines : List String := []
  currentID : String := ""
deriving DecidableEq, Repr

/-- One iteration of the vesta grouping loop: an exact separator line
flushes the open block with the separator appended; empty messages are
skipped; anything else is captured (with opportunistic id extraction
first). -/
def vestaStep (now : GoTime) (st : VestaParseState) (msg : String) : VestaParseState :=
  if msg = VestaSeparator then
    if st.currentLines ≠ [] then
      { records := st.records ++
          [{ id := st.currentID, type := "cdr", timestamp := now,
             lines := st.currentLines ++ [VestaSeparator] }],
        currentLines := [], currentID := "" }
    else st
  else if msg = "" then st
  else
    { st with
      currentID := extractVestaCallID st.currentID msg
      currentLines := st.currentLines ++ [msg] }

/-- The trailing flush: a last block without a trailing separator is
still emitted (without a separator line). -/
def vestaFlush (now : GoTime) (st : VestaParseState) : List CDRRecord :=
  if st.currentLines ≠ [] then
    st.records ++
      [{ id := st.currentID, type := "cdr", timestamp := now,
         lines := st.currentLines }]
  else st.records

/-- The vesta grouping loop over an already-sorted message stream. -/
def vestaSegment (now : GoTime) (msgs : List String) : List CDRRecord :=
  vestaFlush now (msgs.foldl (vestaStep now) {})

/-- `vesta.ParseVestaCSV` on the rows delivered by `csv.ReadAll`. -/
def ParseVestaCSV (now : GoTime) (rows : List (String × String)) : List CDRRecord :=
  vestaSegment now ((sortMessages (rowsToMessages rows)).map LogMessage.message)

/-! ### Time rendering (the Go layout strings this codebase uses) -/

/-- Layout `"01/02/06 15:04:05.000"` (viper `beginFormat`). -/
def fmtViperBegin (t : GoTime) : String :=
  pad2 t.month ++ "/" ++ pad2 t.day ++ "/" ++ pad2 (t.year % 100) ++ " " ++
    pad2 t.hour ++ ":" ++ pad2 t.minute ++ ":" ++ pad2 t.second ++ "." ++ pad3 t.millis

/-- Layout `"15:04  01/02"` (viper `aliDateFormat`). -/
def fmtViperAliDate (t : GoTime) : String :=
  pad2 t.hour ++ ":" ++ pad2 t.minute ++ "  " ++ pad2 t.month ++ "/" ++ pad2 t.day

/-- Layout `"20060102150405"` (viper call-id suffix). -/
def fmtCompact (t : GoTime) : String :=
  pad4 t.year ++ pad2 t.month ++ pad2 t.day ++ pad2 t.hour ++ pad2 t.minute ++ pad2 t.second

/-- Go month abbreviations (`Jan` layout token). -/
def goMonthName (m : Nat) : String :=
  ["Jan", "Feb", "Mar", "Apr", "May", "Jun",
   "Jul", "Aug", "Sep", "Oct", "Nov", "Dec"].getD (m - 1) "Jan"

/-- Layout `"Jan/02/06 15:04:05 EST"` (vesta `dateFormat`; `EST` is a
literal in this layout, not the zone token). -/
def fmtVestaDate (t : GoTime) : String :=
  goMonthName t.month ++ "/" ++ pad2 t.day ++ "/" ++ pad2 (t.year % 100) ++ " " ++
    pad2 t.hour ++ ":" ++ pad2 t.minute ++ ":" ++ pad2 t.second ++ " EST"

/-- Layout `"01/02/2006"` (vesta `aliDateFormat`). -/
def fmtVestaAliDate (t : GoTime) : String :=
  pad2 t.month ++ "/" ++ pad2 t.day ++ "/" ++ pad4 t.year

/-- Layout `"15:04:05.0MST"` (vesta `aliTimeFormat`): tenths of a second
and the zone abbreviation. -/
def fmtVestaAliTime (t : GoTime) : String :=
  pad2 t.hour ++ ":" ++ pad2 t.minute ++ ":" ++ pad2 t.second ++ "." ++
    toString (t.millis / 100) ++ t.zone

/-- `time.Time.Add` restricted to what the generators do with it: shift
by a whole number of seconds.  Calendar rollover is not normalized; the
shifted values are only rendered into line interiors, and no claim
depends on their text. -/
def GoTime.addSeconds (t : GoTime) (n : Nat) : GoTime :=
  { t with second := t.second + n }

/-- `viper.formatDuration`: `"%02d:%02d:%02d.%03d"` from
`int(d.Hours())`, `int(d.Minutes())%60`, `int(d.Seconds())%60`,
`int(d.Milliseconds())%1000`.  The float divisions are exact on the
whole-millisecond values this codebase produces, so integer division
models them; all are non-negative here. -/
def formatDuration (d : GoDuration) : String :=
  let hours := (d.tdiv 3600000000000).toNat
  let minutes := ((d.tdiv 60000000000).tmod 60).toNat
  let seconds := ((d.tdiv 1000000000).tmod 60).toNat
  let millis := ((d.tdiv 1000000).tmod 1000).toNat
  pad2 hours ++ ":" ++ pad2 minutes ++ ":" ++ pad2 seconds ++ "." ++ pad3 millis

/-! ### String slicing helpers (Go `s[i:j]` on ASCII data) -/

def strTake (s : String) (n : Nat) : String := ⟨s.data.take n⟩

def strDrop (s : String) (n : Nat) : String := ⟨s.data.drop n⟩

/-- Go `fmt` `%-16s` / `%-24s`: left-justify, space-pad to width. -/
def padRightTo (n : Nat) (s : String) : String :=
  s ++ ⟨List.replicate (n - s.data.length) ' '⟩

/-- The `[0,1)` float value a raw draw stands for (`Rand.Float64()`);
an arbitrary but fixed surjection onto a dense set of `[0,1)` values.
Only ever rendered, never branched on. -/
def floatOfRaw (n : Nat) : ℚ := (n % 1000000 : ℚ) / 1000000

/-- Go `%+010.6f`: explicit sign, then the magnitude text. -/
def signedFloatText (q : ℚ) : String :=
  (if q < 0 then "-" else "+") ++ floatText |q|

/-! ### Context draw helpers (direct `ctx.Random` uses in the generators) -/

/-- A direct `ctx.Random.Intn(n)` call. -/
def GenerationContext.intn (σ : RandStream) (ctx : GenerationContext) (n : Nat) :
    Nat × GenerationContext :=
  let (v, r') := randIntn σ ctx.random n
  (v, { ctx with random := r' })

/-- A direct `ctx.Random.Float64()` call (raw draw; see `floatOfRaw`). -/
def GenerationContext.floatRaw (σ : RandStream) (ctx : GenerationContext) :
    Nat × GenerationContext :=
  let (v, r') := randFloatRaw σ ctx.random
  (v, { ctx with random := r' })

/-- The `ctx.Random.Float32() > 0.3` agent-block coin. -/
def GenerationContext.agentCoin (σ : RandStream) (ctx : GenerationContext) :
    Bool × GenerationContext :=
  let (b, r') := randAgentCoin σ ctx.random
  (b, { ctx with random := r' })

/-! ### The viper synthetic generator (`format/viper/generator.go`) -/

/-- `viper.generateRandomID` character pool. -/
def randIDChars : String := "abcdefghijklmnopqrstuvwxyz0123456789"

/-- `viper.generateRandomID`: `length` draws, one character each. -/
def generateRandomID (σ : RandStream) : Nat → GoRand → String × GoRand
  | 0, r => ("", r)
  | n + 1, r =>
    let (i, r') := randIntn σ r randIDChars.data.length
    let (rest, r'') := generateRandomID σ n r'
    (⟨[randIDChars.data.getD i 'a']⟩ ++ rest, r'')

/-- `viper.formatPhoneParens`. -/
def formatPhoneParens (phone : String) : String :=
  if phone.data.length = 10 then strTake phone 3 else phone

/-- `viper.generateAgentBlock`. -/
def generateAgentBlock (σ : RandStream) (ctx : GenerationContext) (agent : Agent)
    (callID : String) (posNum stnNum : Nat) (now : GoTime) :
    List String × GenerationContext :=
  let (routeRaw, ctx) := ctx.intn σ 10
  let (psapRaw, ctx) := ctx.intn σ 9000
  ([ "===== AGENT BEGIN : " ++ fmtViperBegin now ++ " =====",
     "ON CALL (ID: " ++ callID ++ ")",
     "DIRECTION = incoming",
     "ROUTE = Q" ++ toString (6000 + routeRaw + 1),
     "VIPERNODE = PRIMARY",
     "AGENT = " ++ agent.name ++ "/" ++ agent.id ++ " ROLE = " ++ agent.role,
     "From  PSAP ID = " ++ toString (psapRaw + 1000) ++ " PSAP Name = " ++ ctx.psapName,
     "POS = " ++ pad4 posNum ++ " / STN = " ++ toString stnNum,
     ViperAgentEnd ], ctx)

/-- `viper.GenerateViperRecord`.  `wallClock` is the `time.Now()` value
used only when the context clock is the zero time.  Draws happen in the
source's statement order. -/
def GenerateViperRecord (σ : RandStream) (wallClock : GoTime)
    (ctx : GenerationContext) : CDRRecord × GenerationContext :=
  let (callNum, ctx) := ctx.NextCallNumber
  let (ani, ctx) := ctx.RandomPhoneNumber σ
  let (location, ctx) := ctx.RandomLocation σ
  let (carrier, ctx) := ctx.RandomCarrier σ
  let (agent, ctx) := ctx.RandomAgent σ
  let now := if ctx.currentTime.isZero then wallClock else ctx.currentTime
  let (duration, ctx) := ctx.RandomDuration σ 30 300
  let (trunkRaw, ctx) := ctx.intn σ 10
  let trunkNum := trunkRaw + 1
  let trunkGroup := "911"
  let trunkName := "SIP" ++ pad3 trunkNum
  let callID := "911" ++ pad3 trunkNum ++ "-" ++
    pad5 ((callNum.tmod 100000).toNat) ++ "-" ++ fmtCompact now
  let (posRaw, ctx) := ctx.intn σ 20
  let posNum := posRaw + 1
  let stnNum := 2000 + posNum
  let (queueRaw, ctx) := ctx.intn σ 10
  let queueNum := 6000 + queueRaw + 1
  let ridP := generateRandomID σ 20 ctx.random
  let rid := ridP.1
  let ctx := { ctx with random := ridP.2 }
  let externalID := "urn:nena:uid:callid:" ++ rid ++ ":inbcf.indigital.net"
  let durationMs := duration.tdiv millisecondNs
  let durationStr := formatDuration duration
  let (sectorRaw, ctx) := ctx.intn σ 8
  let sector := ["N", "S", "E", "W", "NE", "NW", "SE", "SW"].getD sectorRaw "N"
  let (psapRaw, ctx) := ctx.intn σ 50
  let (accRaw, ctx) := ctx.floatRaw σ
  let accuracy : ℚ := 464 / 100 + floatOfRaw accRaw * 50
  let baseLines : List String :=
    [ "===== CDR BEGIN : " ++ fmtViperBegin now ++ " =====",
      "00:00:00.000 [  TS] SYSTEM ID = " ++ goToLower ctx.systemID,
      "00:00:00.000 [VoIP] Incoming Call(ID: " ++ callID ++ ") Offered on Trunk " ++
        trunkName ++ "/" ++ strTake ani 10 ++ "-" ++ trunkName,
      "00:00:00.000 [  TS] Trunk Group = " ++ trunkGroup,
      "00:00:00.000 [VoIP] Call Presented",
      "00:00:00.000 [VoIP] ANI: (40)'" ++ ani ++ "' [VALID] PseudoANI: '' [NONE]",
      "00:00:00.000 [  TS] Initial ALI Request for ANI : " ++ ani,
      "00:00:00.075 [VoIP] External Call-Identifier <" ++ externalID ++ ">",
      "00:00:00.104 [VoIP] Call Connected",
      "00:00:00.108 [VoIP] Routing call QUEUE = " ++ toString queueNum,
      "00:00:01.696 [ PAS] Initial ALI Response received / ALI TYPE = 1",
      durationStr ++ " [VoIP] Caller Disconnected Before Supervision",
      formatDuration (duration + 73 * millisecondNs) ++ " [VoIP] Call Terminated",
      formatDuration (duration + 73 * millisecondNs) ++ " [  TS] Call Completed",
      "",
      "=====   Initial ALI   ====",
      "",
      "(" ++ formatPhoneParens ani ++ ") " ++ fmtViperAliDate now ++ "   " ++ "",
      carrier.name ++ "                   ",
      padRightTo 16 (strTake location.address (min 16 location.address.data.length)),
      goToUpper location.address ++ " - " ++ sector ++ " SECTOR     ",
      "",
      "                              ",
      padRightTo 24 location.city ++ "          ESN " ++ location.esn,
      "CO=" ++ carrier.code ++ " PSAP " ++ pad2 (psapRaw + 1) ++ " POS# " ++
        pad2 posNum ++ "   " ++ carrier.type,
      "                                ",
      "      ",
      "P#(" ++ strTake ani 3 ++ ")" ++ strDrop ani 3,
      " UNC=" ++ floatText accuracy ++ "     COP=90%  Initia",
      "+" ++ floatText location.latitude ++ " -" ++ floatText (-location.longitude),
      "",
      ViperCDREnd ]
  let (coin, ctx) := ctx.agentCoin σ
  let (agentLines, ctx) :=
    if coin then generateAgentBlock σ ctx agent callID posNum stnNum now
    else ([], ctx)
  let lines := if coin then baseLines ++ [""] ++ agentLines else baseLines
  ({ id := callID, type := "cdr", timestamp := now,
     duration := durationMs * millisecondNs, lines := lines }, ctx)

/-! ### The vesta synthetic generator (`format/vesta/generator.go`) -/

/-- `vesta.formatPhoneWithDashes`. -/
def formatPhoneWithDashes (phone : String) : String :=
  if phone.data.length = 10 then
    strTake phone 3 ++ "-" ++ strTake (strDrop phone 3) 3 ++ "-" ++ strDrop phone 6
  else phone

/-- `vesta.generateSIPCallID` character pool. -/
def sipIDChars : String :=
  "ABCDEFGHIJKLMNOPQRSTUVWXYZabcdefghijklmnopqrstuvwxyz0123456789-_"

def sipIDDraws (σ : RandStream) : Nat → GoRand → String × GoRand
  | 0, r => ("", r)
  | n + 1, r =>
    let (i, r') := randIntn σ r sipIDChars.data.length
    let (rest, r'') := sipIDDraws σ n r'
    (⟨[sipIDChars.data.getD i 'A']⟩ ++ rest, r'')

/-- `vesta.generateSIPCallID`: 22 pool draws then `".."`. -/
def generateSIPCallID (σ : RandStream) (ctx : GenerationContext) :
    String × GenerationContext :=
  let p := sipIDDraws σ 22 ctx.random
  (p.1 ++ "..", { ctx with random := p.2 })

/-- `vesta.GenerateVestaRecord`, draws in the source's statement order. -/
def GenerateVestaRecord (σ : RandStream) (wallClock : GoTime)
    (ctx : GenerationContext) : CDRRecord × GenerationContext :=
  let (callNum, ctx) := ctx.NextCallNumber
  let callID := toString callNum
  let (ani, ctx) := ctx.RandomPhoneNumber σ
  let (cpn, ctx) := ctx.RandomPhoneNumber σ
  let (location, ctx) := ctx.RandomLocation σ
  let (carrier, ctx) := ctx.RandomCarrier σ
  let (_, ctx) := ctx.RandomAgent σ
  let now := if ctx.currentTime.isZero then wallClock else ctx.currentTime
  let (duration, ctx) := ctx.RandomDuration σ 30 300
  let endTime := now.addSeconds (duration.tdiv secondNs).toNat
  let (devRaw, ctx) := ctx.intn σ 10
  let deviceNum := devRaw + 1
  let posDevice := "DCD" ++ pad2 deviceNum
  let (eimRaw, ctx) := ctx.intn σ 5
  let eimDevice := "DCDEIM911" ++ toString (eimRaw + 1)
  let queueName := "DCD-911"
  let d0 := fmtVestaDate now
  let d2 := fmtVestaDate (now.addSeconds 2)
  let d4 := fmtVestaDate (now.addSeconds 4)
  let de := fmtVestaDate endTime
  let callEvents :=
    "ANI             " ++ ani ++
      "                                                      CPN             " ++ cpn ++
      "                                                                                                                                      Call " ++
      callID ++ "   Arrives On               " ++ eimDevice ++ "     " ++ d0 ++
      " " ++ eimDevice ++ "           Goes Off Hook                            " ++ d0 ++
      " " ++ eimDevice ++ "           Queue In                 " ++ queueName ++
      "         " ++ d0 ++ " Call " ++ callID ++
      "   Cellular Call                            " ++ d2 ++ " Call " ++ callID ++
      "   CPN: " ++ cpn ++ "                          " ++ d2 ++ " " ++ queueName ++
      "         Queue Out (Answered)     " ++ posDevice ++ "           " ++ d4 ++
      " " ++ posDevice ++ "          Picks Up                                 " ++ d4 ++
      " " ++ eimDevice ++ "     Is Released                              " ++ de ++
      " " ++ posDevice ++ "          Hangs Up                 Call " ++ callID ++
      "   " ++ de ++ " " ++ posDevice ++ "          Releases                 Call " ++
      callID ++ "   " ++ de ++ " Call " ++ callID ++
      "   Finishes                                 " ++ de
  let (locTechRaw, ctx) := ctx.intn σ 4
  let locTech :=
    ["Handset AGPS", "Handset GPS", "Hybrid Device Based",
     "Hybrid Unspecified"].getD locTechRaw "Handset AGPS"
  let confidence : Nat := 90
  let (accRaw, ctx) := ctx.floatRaw σ
  let accuracy : ℚ := 464 / 100 + floatOfRaw accRaw * 50
  let fpdAni := formatPhoneWithDashes ani
  let fpdCpn := formatPhoneWithDashes cpn
  let (z10Raw, ctx) := ctx.floatRaw σ
  let z10 : ℚ := floatOfRaw z10Raw * 10
  let aliLine :=
    fpdAni ++ "   CBN " ++ fpdCpn ++ "    " ++ carrier.code ++ "  " ++
      fmtVestaAliDate now ++ "     " ++ fmtVestaAliTime now ++ "EST        " ++
      carrier.type ++ carrier.name ++ "                         ESN " ++
      location.esn ++ "           " ++ goToUpper location.address ++
      "                                                    Township:                               " ++
      goToUpper location.township ++ "                            " ++
      location.state ++ "Comments:                               " ++
      goToUpper (strTake location.city (min location.city.data.length 20)) ++
      "                                                       " ++ "Updated" ++
      " PositionX=" ++ signedFloatText location.longitude ++ "            " ++
      toString confidence ++ "% sure callerY=" ++ signedFloatText location.latitude ++
      "         within " ++ floatText accuracy ++ " metersZ=" ++
      pad3 (ratTrunc location.altitude).toNat ++ "+/-" ++ floatText z10 ++
      "                                                          LAW:                                    FIR:                                    EMS:                                    LocTechn:" ++
      locTech ++ "            MIN:           IMIN:                    Tabular/Legacy route " ++
      goToUpper location.city
  let (sipID, ctx) := generateSIPCallID σ ctx
  let lines : List String :=
    [ toString (3001 : Nat) ++ " " ++ "Nebraska",
      callEvents,
      "ALI Information",
      aliLine,
      "SIP Call IDs",
      sipID,
      VestaSeparator ]
  ({ id := callID, type := "cdr", timestamp := now,
     duration := duration, lines := lines }, ctx)

/-! ### Format dispatch (`format.CDRFormat` methods) -/

/-- `CDRFormat.ParseRecords` of each implementation (total after a
successful CSV read; see the parser definitions). -/
def FormatKind.ParseRecords (f : FormatKind) (now : GoTime)
    (rows : List (String × String)) : List CDRRecord :=
  match f with
  | .vesta => ParseVestaCSV now rows
  | .viper => ParseViperCSV now rows

/-- `CDRFormat.GenerateRecord` of each implementation (neither returns
an error). -/
def FormatKind.GenerateRecord (f : FormatKind) (σ : RandStream)
    (wallClock : GoTime) (ctx : GenerationContext) :
    CDRRecord × GenerationContext :=
  match f with
  | .vesta => GenerateVestaRecord σ wallClock ctx
  | .viper => GenerateViperRecord σ wallClock ctx

/-! ### Generator construction (`generator.New`) -/

/-- The registry as the two `init()` calls leave it at process start
(`vesta.init`, `viper.init` via `MustRegister`; Go package
initialization order between the two is unspecified and immaterial:
lookups are key-based and `List` sorts). -/
def initRegistry : Registry :=
  (registryRegister (registryRegister [] .vesta).1 .viper).1

/-- The sample-file collaborator: `os.Open` plus `csv.ReadAll` for a
path, yielding the two-column rows or the I/O or CSV error text. -/
def FileSys : Type := String → Except String (List (String × String))

/-- `generator.New` followed by `loadSampleFile` for replay mode.  `now`
is the `time.Now()` reading taken when a synthetic context is built.
The open error and the CSV read error both surface as the wrapped
`failed to ...` construction error (their exact texts differ in Go;
no claim depends on them). -/
def generatorNew (reg : Registry) (fs : FileSys) (now : GoTime)
    (portCfg : PortConfig) (jitterPercent : ℚ) : Except String Generator :=
  match registryGet reg portCfg.format with
  | .error e => .error ("unknown format " ++ portCfg.format ++ ": " ++ e)
  | .ok f =>
    if portCfg.mode ≠ "replay" ∧ portCfg.mode ≠ "synthetic" then
      .error ("invalid mode: " ++ portCfg.mode)
    else
      let g : Generator :=
        { format := f
          mode := portCfg.mode
          portConfig := portCfg
          rateLimiter := ⟨portCfg.callsPerMinute, jitterPercent⟩
          loop := portCfg.loop }
      if portCfg.mode = "replay" then
        if portCfg.sampleFile = "" then
          .error "sample_file is required for replay mode"
        else
          match fs portCfg.sampleFile with
          | .error e => .error ("failed to open sample file: " ++ e)
          | .ok rows =>
            let records := f.ParseRecords now rows
            if records.length = 0 then
              .error "no records found in sample file"
            else
              .ok { g with records := records, recordIndex := 0 }
      else
        let systemID :=
          match portCfg.synthetic with
          | some s => s.systemID
          | none => "default"
        .ok { g with genContext := some (NewGenerationContext systemID "Default PSAP" 0 now) }

/-- `Generator.NextRecord`: replay dispatch or synthetic generation
(`nextSyntheticRecord`, which fails only on a nil context and otherwise
delegates to the format's generator). -/
def Generator.NextRecord (σ : RandStream) (wallClock : GoTime)
    (g : Generator) : GenResult :=
  if g.mode = "replay" then
    g.nextReplayRecord
  else
    match g.genContext with
    | none => .fail "generation context not initialized" g
    | some ctx =>
      let (rec, ctx') := g.format.GenerateRecord σ wallClock ctx
      .ok rec { g with genContext := some ctx' }

/-- `Generator.RecordCount`: loaded count for replay, `-1` for
synthetic. -/
def Generator.RecordCount (g : Generator) : Int :=
  if g.mode = "replay" then (g.records.length : Int) else -1

/-! ### C5: synthesized call durations -/

theorem tdiv_ms_exact (k : Nat) :
    (((30 + (k : Int)) * secondNs).tdiv millisecondNs) * millisecondNs =
      (30 + (k : Int)) * secondNs := by
  have h : (30 + (k : Int)) * secondNs = ((30 + (k : Int)) * 1000) * millisecondNs := by
    simp only [secondNs, millisecondNs]
    ring
  rw [h, Int.mul_tdiv_cancel _ (by decide)]

theorem GenerateViperRecord_duration (σ : RandStream) (wall : GoTime)
    (ctx : GenerationContext) :
    ∃ k : Nat, k < 270 ∧
      (GenerateViperRecord σ wall ctx).1.duration = (30 + (k : Int)) * secondNs := by
  refine ⟨σ ctx.random.seed (ctx.random.pos + 1 + 1 + 1 + 1 + 1 + 1) % 270,
    Nat.mod_lt _ (by decide), ?_⟩
  simp only [GenerateViperRecord, GenerationContext.NextCallNumber,
    GenerationContext.RandomPhoneNumber, GenerationContext.RandomLocation,
    GenerationContext.RandomCarrier, GenerationContext.RandomAgent,
    GenerationContext.RandomDuration, GenerationContext.intn,
    GenerationContext.floatRaw, GenerationContext.agentCoin,
    randIntn, randNext, randFloatRaw, randAgentCoin]
  rw [if_neg (by decide : ¬ (300 : Int) ≤ 30),
    (by decide : ((300 : Int) - 30).toNat = 270)]
  exact tdiv_ms_exact _

set_option maxHeartbeats 1000000 in
theorem GenerateVestaRecord_duration (σ : RandStream) (wall : GoTime)
    (ctx : GenerationContext) :
    ∃ k : Nat, k < 270 ∧
      (GenerateVestaRecord σ wall ctx).1.duration = (30 + (k : Int)) * secondNs := by
  refine ⟨σ ctx.random.seed (ctx.random.pos + 1 + 1 + 1 + 1 + 1 + 1 + 1 + 1 + 1) % 270,
    Nat.mod_lt _ (by decide), ?_⟩
  simp only [GenerateVestaRecord, GenerationContext.NextCallNumber,
    GenerationContext.RandomPhoneNumber, GenerationContext.RandomLocation,
    GenerationContext.RandomCarrier, GenerationContext.RandomAgent,
    GenerationContext.RandomDuration, GenerationContext.intn,
    GenerationContext.floatRaw, GenerationContext.agentCoin, generateSIPCallID,
    randIntn, randNext, randFloatRaw, randAgentCoin]
  rw [if_neg (by decide : ¬ (300 : Int) ≤ 30),
    (by decide : ((300 : Int) - 30).toNat = 270)]

/-- C5, amended: `RandomDuration(min, max)` yields exactly `min` seconds
whenever `max ≤ min`; but both synthetic generators call it with the
*fixed* bounds 30 and 300 — the configured `min_duration_sec` and
`max_duration_sec` are never consulted — so every synthesized record's
call duration is a whole number of seconds in `[30 s, 299 s]`
(uniformly drawn as `30 + Intn(270)` seconds), for both protocols. -/
theorem c5_duration_fixed_range (σ : RandStream) (wall : GoTime)
    (ctx : GenerationContext) (minSec maxSec : Int) (h : maxSec ≤ minSec) :
    (GenerationContext.RandomDuration σ ctx minSec maxSec).1 = minSec * secondNs ∧
    (30 * secondNs ≤ (GenerateViperRecord σ wall ctx).1.duration ∧
      (GenerateViperRecord σ wall ctx).1.duration ≤ 299 * secondNs) ∧
    (30 * secondNs ≤ (GenerateVestaRecord σ wall ctx).1.duration ∧
      (GenerateVestaRecord σ wall ctx).1.duration ≤ 299 * secondNs) := by
  refine ⟨?_, ?_, ?_⟩
  · unfold GenerationContext.RandomDuration
    rw [if_pos h]
  · obtain ⟨k, hk, hd⟩ := GenerateViperRecord_duration σ wall ctx
    rw [hd]
    constructor
    · show (30 : Int) * 1000000000 ≤ (30 + (k : Int)) * 1000000000
      omega
    · show (30 + (k : Int)) * 1000000000 ≤ (299 : Int) * 1000000000
      omega
  · obtain ⟨k, hk, hd⟩ := GenerateVestaRecord_duration σ wall ctx
    rw [hd]
    constructor
    · show (30 : Int) * 1000000000 ≤ (30 + (k : Int)) * 1000000000
      omega
    · show (30 + (k : Int)) * 1000000000 ≤ (299 : Int) * 1000000000
      omega

/-- Witness for `c5_duration_fixed_range` at `min = max = 300` on a
freshly constructed context and the all-zeros stream. -/
theorem c5_duration_fixed_range_witness :
    (GenerationContext.RandomDuration (fun _ _ => 0)
      (NewGenerationContext "sys1" "Default PSAP" 0 {}) 300 300).1 =
      300 * secondNs ∧
    30 * secondNs ≤
      (GenerateViperRecord (fun _ _ => 0) {}
        (NewGenerationContext "sys1" "Default PSAP" 0 {})).1.duration :=
  ⟨(c5_duration_fixed_range (fun _ _ => 0) {}
      (NewGenerationContext "sys1" "Default PSAP" 0 {}) 300 300 le_rfl).1,
    (c5_duration_fixed_range (fun _ _ => 0) {}
      (NewGenerationContext "sys1" "Default PSAP" 0 {}) 300 300 le_rfl).2.1.1⟩

/-- A synthetic viper endpoint configured with a 400–500 s duration
range. -/
def c5Config : PortConfig :=
  { device := "/dev/ttyS1"
    format := "viper"
    mode := "synthetic"
    callsPerMinute := 1
    enabled := true
    synthetic := some
      { systemID := "sys1"
        agentCount := 10
        minDurationSec := 400
        maxDurationSec := 500 } }

/-- The all-zeros raw-draw stream. -/
def zeroStream : RandStream := fun _ _ => 0

/-- C5, counterexample: with `min_duration_sec = 400` and
`max_duration_sec = 500` configured, the generator built from that
configuration synthesizes a record whose call duration is 30 seconds —
outside the configured range, because generation always draws from the
fixed range `[30, 300)`. -/
theorem c5_configured_range_counterexample :
    ∃ g rec g',
      generatorNew initRegistry (fun _ => .error "unused") {} c5Config 0 = .ok g ∧
      Generator.NextRecord zeroStream {} g = .ok rec g' ∧
      rec.duration = 30 * secondNs ∧
      c5Config.synthetic = some
        { systemID := "sys1"
          agentCount := 10
          minDurationSec := 400
          maxDurationSec := 500 } ∧
      ¬(400 * secondNs ≤ rec.duration) := by
  refine ⟨_, _, _, rfl, rfl, by decide, rfl, by decide⟩

/-! ### C8: the seed of every synthetic generation context -/

/-- The infinite sequence of raw draws a source will produce from its
current state — the whole future randomness of the context. -/
def drawSeq (σ : RandStream) (r : GoRand) : Nat → Nat :=
  fun i => σ r.seed (r.pos + i)

/-- C8, evaluated against the code: `generator.New` passes the constant
seed `0` to `format.NewGenerationContext` for *every* synthetic
endpoint, so every pair of successfully constructed synthetic
generators — same configuration or not — owns a context whose
randomness source is in the identical state `(seed 0, position 0)` and
therefore yields the identical draw sequence under every pseudo-random
algorithm: the sequences are fully coupled, never independent. -/
theorem c8_constant_seed_coupling (reg : Registry) (fs₁ fs₂ : FileSys)
    (now₁ now₂ : GoTime) (cfg₁ cfg₂ : PortConfig) (j₁ j₂ : ℚ)
    (g₁ g₂ : Generator)
    (h₁ : generatorNew reg fs₁ now₁ cfg₁ j₁ = .ok g₁)
    (h₂ : generatorNew reg fs₂ now₂ cfg₂ j₂ = .ok g₂)
    (hm₁ : cfg₁.mode = "synthetic") (hm₂ : cfg₂.mode = "synthetic") :
    ∃ c₁ c₂, g₁.genContext = some c₁ ∧ g₂.genContext = some c₂ ∧
      c₁.random = ⟨0, 0⟩ ∧ c₂.random = ⟨0, 0⟩ ∧
      ∀ σ : RandStream, drawSeq σ c₁.random = drawSeq σ c₂.random := by
  have key : ∀ (fs : FileSys) (now : GoTime) (cfg : PortConfig) (j : ℚ)
      (g : Generator), generatorNew reg fs now cfg j = .ok g →
      cfg.mode = "synthetic" → ∃ c, g.genContext = some c ∧ c.random = ⟨0, 0⟩ := by
    intro fs now cfg j g h hm
    unfold generatorNew at h
    rcases hget : registryGet reg cfg.format with e | f <;> rw [hget] at h
    · exact absurd h (by simp)
    · rw [hm] at h
      simp at h
      exact ⟨_, by rw [← h], rfl⟩
  obtain ⟨c₁, hc₁, hr₁⟩ := key fs₁ now₁ cfg₁ j₁ g₁ h₁ hm₁
  obtain ⟨c₂, hc₂, hr₂⟩ := key fs₂ now₂ cfg₂ j₂ g₂ h₂ hm₂
  exact ⟨c₁, c₂, hc₁, hc₂, hr₁, hr₂, fun σ => by rw [hr₁, hr₂]⟩

/-- A second synthetic endpoint with the same configuration shape as
`c5Config` but a different identity (vesta, other device and system). -/
def c8ConfigB : PortConfig :=
  { device := "/dev/ttyS2"
    format := "vesta"
    mode := "synthetic"
    callsPerMinute := 5
    enabled := true
    synthetic := some
      { systemID := "sys2"
        agentCount := 3
        minDurationSec := 10
        maxDurationSec := 20 } }

/-- Witness for `c8_constant_seed_coupling`: two concrete synthetic
generators (one viper, one vesta, different configurations) share the
identical randomness state. -/
theorem c8_constant_seed_coupling_witness :
    ∃ g₁ g₂,
      generatorNew initRegistry (fun _ => .error "unused") {} c5Config 0 = .ok g₁ ∧
      generatorNew initRegistry (fun _ => .error "unused") {} c8ConfigB 10 = .ok g₂ ∧
      ∃ c₁ c₂, g₁.genContext = some c₁ ∧ g₂.genContext = some c₂ ∧
        c₁.random = ⟨0, 0⟩ ∧ c₂.random = ⟨0, 0⟩ ∧
        ∀ σ : RandStream, drawSeq σ c₁.random = drawSeq σ c₂.random := by
  refine ⟨_, _, rfl, rfl, ?_⟩
  exact c8_constant_seed_coupling initRegistry (fun _ => .error "unused")
    (fun _ => .error "unused") {} {} c5Config c8ConfigB 0 10 _ _ rfl rfl rfl rfl

/-! ### The output channel (`output` package, production tick) -/

/-- `output.ChannelState`. -/
inductive ChannelState where
  | initializing
  | running
  | paused
  | reconnecting
  | stopped
  | error
deriving DecidableEq, Repr

/-- `output.ChannelStats` (claim-relevant fields; `StartTime` omitted,
nothing reads it in the production path). -/
structure ChannelStats where
  recordsSent : Int := 0
  bytesSent : Int := 0
  errors : Int := 0
  lastRecordTime : GoTime := {}
  lastError : String := ""
deriving DecidableEq, Repr

/-- One channel: its state machine position, statistics and generator.
The transport handle is the per-tick `PortState` snapshot below. -/
structure Channel where
  state : ChannelState
  stats : ChannelStats
  generator : Generator
deriving DecidableEq, Repr

/-- The transport capability as one tick observes it: the `IsOpen`
signal, the `Write` outcome, and the `Flush` outcome (whose failure is
only logged by the channel, never acted on). -/
structure PortState where
  isOpen : Bool
  writeResult : Except String Nat
  flushErr : Option String := none
deriving Repr

/-- `Channel.handleError`: count the error, record its message, and
enter the reconnect procedure (whose first action is
`setState(StateReconnecting)`) exactly when the transport reports
itself closed.  The reconnect procedure's retry loop itself is driven
by sleeps and reopen attempts outside this per-tick model. -/
def Channel.handleError (c : Channel) (port : PortState) (msg : String) : Channel :=
  let c' := { c with stats :=
    { c.stats with errors := c.stats.errors + 1, lastError := msg } }
  if port.isOpen then c' else { c' with state := .reconnecting }

/-- Outcome of one production-loop tick.  `panicked` models a Go
runtime panic escaping `sendNextRecord` (it crashes the goroutine and
with it the process). -/
inductive TickResult where
  | ok (c : Channel)
  | panicked
deriving DecidableEq, Repr

/-- One tick of `Channel.outputLoop`: `sendNextRecord` followed, on
error, by `handleError`.  On success the statistics are advanced; a
flush failure is only logged. -/
def Channel.tick (σ : RandStream) (now : GoTime) (c : Channel)
    (port : PortState) : TickResult :=
  match c.generator.NextRecord σ now with
  | .indexOutOfRange => .panicked
  | .fail msg g' =>
    .ok (Channel.handleError { c with generator := g' } port
      ("failed to get next record: " ++ msg))
  | .ok _record g' =>
    let c' := { c with generator := g' }
    match port.writeResult with
    | .error e =>
      .ok (c'.handleError port ("failed to write to port: " ++ e))
    | .ok n =>
      .ok { c' with stats :=
        { c'.stats with
          recordsSent := c'.stats.recordsSent + 1
          bytesSent := c'.stats.bytesSent + n
          lastRecordTime := now } }

/-- A running replay channel whose generator holds a single record with
looping disabled, over an open, healthy transport. -/
def c7Channel : Channel :=
  { state := .running
    stats := {}
    generator :=
      { format := .vesta
        mode := "replay"
        rateLimiter := ⟨1, 0⟩
        records := [recA]
        recordIndex := 0
        loop := false } }

def c7Port : PortState := { isOpen := true, writeResult := .ok 10 }

/-- C7, evaluated at the failing input.  The `handleError` half of the
claim does hold (first conjunct, for every channel, transport and
error): the counter and message are recorded and the state becomes
`Reconnecting` exactly when the transport is closed, otherwise it is
untouched.  But the "statistics error on every subsequent tick" half
fails: with one loaded record and looping disabled, the first tick
records the end-of-sample statistics error leaving the state `Running`
(as claimed), and the *next* tick indexes `records[1]` — a Go
index-out-of-range panic that kills the channel's goroutine — instead
of recording another statistics error. -/
theorem c7_error_handling_eval :
    (∀ (c : Channel) (port : PortState) (msg : String),
      (c.handleError port msg).stats.errors = c.stats.errors + 1 ∧
      (c.handleError port msg).stats.lastError = msg ∧
      (c.handleError port msg).state =
        (if port.isOpen then c.state else .reconnecting)) ∧
    (∃ c₁, Channel.tick zeroStream {} c7Channel c7Port = .ok c₁ ∧
      c₁.stats.errors = 1 ∧
      c₁.stats.lastError = "failed to get next record: end of sample file reached" ∧
      c₁.state = .running ∧
      Channel.tick zeroStream {} c₁ c7Port = .panicked) := by
  constructor
  · intro c port msg
    unfold Channel.handleError
    rcases hp : port.isOpen <;> simp [hp]
  · exact ⟨_, rfl, by decide, by decide, by decide, by decide⟩

/-! ### The output manager (`output.Manager.Start`) -/

/-- The transport-open collaborator: the `serial.Open` outcome for a
port configuration (`Channel.Start` fails exactly when this does, and
then sets the channel's terminal `Error` state). -/
def OpenFn : Type := PortConfig → Except String Unit

/-- The `Manager.Start` loop over the configured ports.  `started` is
`m.channels`, mutated as channels start.  A disabled port is skipped; a
generator-construction failure *returns immediately* with the wrapped
error (the remaining ports are never attempted, and already-started
channels stay in `m.channels`); a channel-start failure is logged and
skipped; after the loop, an error is returned exactly when no channel
started. -/
def managerStartLoop (reg : Registry) (fs : FileSys) (openPort : OpenFn)
    (now : GoTime) (jitter : ℚ) :
    List PortConfig → List (PortConfig × Generator) →
      List (PortConfig × Generator) × Option String
  | [], started =>
    if started.length = 0 then (started, some "no output channels started")
    else (started, none)
  | p :: rest, started =>
    if p.enabled = false then
      managerStartLoop reg fs openPort now jitter rest started
    else
      match generatorNew reg fs now p jitter with
      | .error e =>
        (started, some ("failed to create generator for " ++ p.device ++ ": " ++ e))
      | .ok gen =>
        match openPort p with
        | .error _ => managerStartLoop reg fs openPort now jitter rest started
        | .ok _ =>
          managerStartLoop reg fs openPort now jitter rest (started ++ [(p, gen)])

/-- `Manager.Start`: the loop from an empty channel list; returns the
final channel list and the error, if any. -/
def managerStart (reg : Registry) (fs : FileSys) (openPort : OpenFn)
    (now : GoTime) (jitter : ℚ) (ports : List PortConfig) :
    List (PortConfig × Generator) × Option String :=
  managerStartLoop reg fs openPort now jitter ports []

/-- An enabled endpoint whose generator construction fails (unknown
format name). -/
def c2BadConfig : PortConfig :=
  { device := "/dev/ttyS9"
    format := "nope"
    mode := "synthetic"
    callsPerMinute := 1
    enabled := true }

/-- C2, counterexample.  With the registry and a healthy transport:
(i) ports `[good, bad]` (the good one starts, then the bad one's
generator construction fails): `Start` returns an error even though one
channel was started — refuting "errors if and only if zero channels
were started"; (ii) ports `[bad, good]`: `Start` aborts at the bad
endpoint with zero channels started and never attempts the good one —
refuting "only that endpoint is skipped and startup continues with the
remaining endpoints". -/
theorem c2_manager_start_counterexample :
    (∃ gen e,
      managerStart initRegistry (fun _ => .error "unused") (fun _ => .ok ()) {} 0
        [c5Config, c2BadConfig] = ([(c5Config, gen)], some e)) ∧
    managerStart initRegistry (fun _ => .error "unused") (fun _ => .ok ()) {} 0
      [c2BadConfig, c5Config] =
      ([], some ("failed to create generator for /dev/ttyS9: " ++
        "unknown format nope: unknown format: nope")) := by
  exact ⟨⟨_, _, rfl⟩, rfl⟩

theorem managerStartLoop_nil_fst (reg : Registry) (fs : FileSys) (openPort : OpenFn)
    (now : GoTime) (jitter : ℚ) (started : List (PortConfig × Generator)) :
    (managerStartLoop reg fs openPort now jitter [] started).1 = started := by
  unfold managerStartLoop
  split <;> rfl

theorem enabled_true_of_not_false (p : PortConfig) (h : ¬ p.enabled = false) :
    p.enabled = true := by
  revert h
  cases p.enabled <;> simp

theorem managerStartLoop_ok_iff (reg : Registry) (fs : FileSys) (openPort : OpenFn)
    (now : GoTime) (jitter : ℚ) :
    ∀ (ports : List PortConfig) (started : List (PortConfig × Generator)),
      (∀ p ∈ ports, p.enabled = true → (generatorNew reg fs now p jitter).isOk = true) →
      ((managerStartLoop reg fs openPort now jitter ports started).2.isSome ↔
        (managerStartLoop reg fs openPort now jitter ports started).1 = []) := by
  intro ports
  induction ports with
  | nil =>
    intro started _
    unfold managerStartLoop
    by_cases hs : started.length = 0
    · rw [if_pos hs]
      simp [List.length_eq_zero.mp hs]
    · rw [if_neg hs]
      simp only [Option.isSome_none, Bool.false_eq_true, false_iff]
      intro hnil
      exact hs (by rw [hnil]; rfl)
  | cons p rest ih =>
    intro started hall
    unfold managerStartLoop
    by_cases hp : p.enabled = false
    · rw [if_pos hp]
      exact ih started (fun q hq => hall q (List.mem_cons_of_mem _ hq))
    · rw [if_neg hp]
      rcases hg : generatorNew reg fs now p jitter with e | gen
      · have := hall p (List.mem_cons_self _ _) (enabled_true_of_not_false p hp)
        rw [hg] at this
        simp [Except.isOk, Except.toBool] at this
      · rcases ho : openPort p with e' | u <;> simp only [hg, ho] <;>
          exact ih _ (fun q hq => hall q (List.mem_cons_of_mem _ hq))

theorem managerStartLoop_abort (reg : Registry) (fs : FileSys) (openPort : OpenFn)
    (now : GoTime) (jitter : ℚ) (p : PortConfig) (e : String)
    (hp : p.enabled = true) (hg : generatorNew reg fs now p jitter = .error e) :
    ∀ (pre : List PortConfig) (post : List PortConfig)
      (started : List (PortConfig × Generator)),
      (∀ q ∈ pre, q.enabled = true → (generatorNew reg fs now q jitter).isOk = true) →
      managerStartLoop reg fs openPort now jitter (pre ++ p :: post) started =
        ((managerStartLoop reg fs openPort now jitter pre started).1,
          some ("failed to create generator for " ++ p.device ++ ": " ++ e)) := by
  intro pre
  induction pre with
  | nil =>
    intro post started _
    simp only [List.nil_append]
    rw [managerStartLoop_nil_fst]
    unfold managerStartLoop
    rw [hp, if_neg (by decide : ¬ (true = false))]
    simp only [hg]
  | cons q pre' ih =>
    intro post started hall
    have hq := hall q (List.mem_cons_self _ _)
    simp only [List.cons_append]
    unfold managerStartLoop
    by_cases hqe : q.enabled = false
    · rw [if_pos hqe, if_pos hqe]
      exact ih post started (fun r hr => hall r (List.mem_cons_of_mem _ hr))
    · rw [if_neg hqe, if_neg hqe]
      rcases hgen : generatorNew reg fs now q jitter with e' | gen
      · rw [hgen] at hq
        simp [Except.isOk, Except.toBool] at hq
        exact absurd hq hqe
      · rcases ho : openPort q with e'' | u <;> simp only [hgen, ho] <;>
          exact ih post _ (fun r hr => hall r (List.mem_cons_of_mem _ hr))

/-- C2, amended: during `Manager.Start`, an enabled endpoint whose
*channel start* (transport open) fails is logged and skipped, and when
every enabled endpoint's generator construction succeeds, `Start`
returns an error exactly when zero channels started.  But an enabled
endpoint whose *generator construction* fails aborts `Start`
immediately: the wrapped construction error is returned, the endpoints
after it are never attempted, and the channels started before it remain
(so `Start` can return an error even though channels were started). -/
theorem c2_manager_start_behavior (reg : Registry) (fs : FileSys)
    (openPort : OpenFn) (now : GoTime) (jitter : ℚ)
    (ports pre post : List PortConfig) (p : PortConfig) (e : String)
    (hall : ∀ q ∈ ports, q.enabled = true →
      (generatorNew reg fs now q jitter).isOk = true)
    (hpre : ∀ q ∈ pre, q.enabled = true →
      (generatorNew reg fs now q jitter).isOk = true)
    (hp : p.enabled = true) (hg : generatorNew reg fs now p jitter = .error e) :
    ((managerStart reg fs openPort now jitter ports).2.isSome ↔
      (managerStart reg fs openPort now jitter ports).1 = []) ∧
    managerStart reg fs openPort now jitter (pre ++ p :: post) =
      ((managerStart reg fs openPort now jitter pre).1,
        some ("failed to create generator for " ++ p.device ++ ": " ++ e)) :=
  ⟨managerStartLoop_ok_iff reg fs openPort now jitter ports [] hall,
    managerStartLoop_abort reg fs openPort now jitter p e hp hg pre post [] hpre⟩

/-- Witness for `c2_manager_start_behavior` on concrete ports: one
healthy viper endpoint, then the unknown-format endpoint. -/
theorem c2_manager_start_behavior_witness :
    ((managerStart initRegistry (fun _ => .error "unused") (fun _ => .ok ()) {} 0
        [c5Config]).2.isSome ↔
      (managerStart initRegistry (fun _ => .error "unused") (fun _ => .ok ()) {} 0
        [c5Config]).1 = []) ∧
    managerStart initRegistry (fun _ => .error "unused") (fun _ => .ok ()) {} 0
        ([c5Config] ++ c2BadConfig :: []) =
      ((managerStart initRegistry (fun _ => .error "unused") (fun _ => .ok ()) {} 0
          [c5Config]).1,
        some ("failed to create generator for " ++ c2BadConfig.device ++ ": " ++
          "unknown format nope: unknown format: nope")) :=
  c2_manager_start_behavior initRegistry (fun _ => .error "unused")
    (fun _ => .ok ()) {} 0 [c5Config] [c5Config] [] c2BadConfig
    "unknown format nope: unknown format: nope"
    (by decide) (by decide) rfl rfl

/-! ### Character-level lemmas for the block grammar -/

theorem charsHasPref_nil (l : List Char) : charsHasPref l [] = true := by
  cases l <;> rfl

theorem charsHasPref_append_of (p : List Char) :
    ∀ l t, charsHasPref l p = true → charsHasPref (l ++ t) p = true := by
  induction p with
  | nil => intro l t _; exact charsHasPref_nil _
  | cons c ps ih =>
    intro l t h
    cases l with
    | nil => simp [charsHasPref] at h
    | cons a as =>
      simp only [List.cons_append, charsHasPref, Bool.and_eq_true] at h ⊢
      exact ⟨h.1, ih as t h.2⟩

theorem charsHasPref_of_append_le (p : List Char) :
    ∀ l t, p.length ≤ l.length → charsHasPref (l ++ t) p = charsHasPref l p := by
  induction p with
  | nil => intro l t _; rw [charsHasPref_nil, charsHasPref_nil]
  | cons c ps ih =>
    intro l t h
    cases l with
    | nil => simp at h
    | cons a as =>
      simp only [List.cons_append, charsHasPref]
      rw [show as.append t = as ++ t from rfl, ih as t (by simpa using h)]

theorem charsHasPref_head (c : Char) (p : List Char) :
    ∀ l, charsHasPref l (c :: p) = true → l.head? = some c := by
  intro l h
  cases l with
  | nil => simp [charsHasPref] at h
  | cons a as =>
    simp only [charsHasPref, Bool.and_eq_true, decide_eq_true_eq] at h
    rw [h.1]
    rfl

theorem dropWhile_eq_self_of_head (p : Char → Bool) (l : List Char) (c : Char)
    (hh : l.head? = some c) (hc : p c = false) : l.dropWhile p = l := by
  cases l with
  | nil => rfl
  | cons a as =>
    simp only [List.head?_cons, Option.some.injEq] at hh
    rw [List.dropWhile_cons, hh, hc]
    simp

theorem head_dropWhile_not (p : Char → Bool) :
    ∀ (l : List Char) (c : Char), (l.dropWhile p).head? = some c → p c = false := by
  intro l
  induction l with
  | nil => intro c h; simp at h
  | cons a as ih =>
    intro c h
    rw [List.dropWhile_cons] at h
    by_cases hp : p a = true
    · rw [if_pos hp] at h
      exact ih c h
    · rw [if_neg hp] at h
      simp only [List.head?_cons, Option.some.injEq] at h
      rw [← h]
      exact Bool.eq_false_iff.mpr hp

theorem dropWhile_append_of_ne_nil (p : Char → Bool) (t : List Char) :
    ∀ (l : List Char), l.dropWhile p ≠ [] →
      (l ++ t).dropWhile p = l.dropWhile p ++ t := by
  intro l
  induction l with
  | nil => intro h; exact absurd rfl h
  | cons a as ih =>
    intro h
    rw [List.dropWhile_cons] at h
    simp only [List.cons_append, List.dropWhile_cons]
    rcases hpa : p a with _ | _
    · rw [hpa] at h
      simp
    · rw [hpa] at h
      simp only [if_true] at h
      simp only [if_true]
      exact ih h

theorem getLast?_of_suffix_ne_nil (l s : List Char) (hs : s <:+ l) (hn : s ≠ []) :
    s.getLast? = l.getLast? := by
  obtain ⟨pre, rfl⟩ := hs
  rw [List.getLast?_append]
  rcases he : s.getLast? with _ | c
  · exact absurd (List.getLast?_eq_none_iff.mp he) hn
  · rfl

theorem trimChars_head (l : List Char) :
    (trimChars l).head? = (l.dropWhile goIsSpace).head? := by
  unfold trimChars
  rcases hm : l.dropWhile goIsSpace with _ | ⟨c, t⟩
  · rfl
  · have hc : goIsSpace c = false :=
      head_dropWhile_not goIsSpace l c (by rw [hm]; rfl)
    have hmem : c ∈ (c :: t).reverse := by simp
    have hne : (c :: t).reverse.dropWhile goIsSpace ≠ [] := by
      intro hnil
      have := List.dropWhile_eq_nil_iff.mp hnil c hmem
      rw [hc] at this
      exact Bool.false_ne_true this
    have hlast : ((c :: t).reverse.dropWhile goIsSpace).getLast? =
        ((c :: t).reverse).getLast? :=
      getLast?_of_suffix_ne_nil _ _ (List.dropWhile_suffix _) hne
    rw [List.head?_reverse, hlast, List.getLast?_reverse]

theorem trimChars_eq_self (l : List Char) (c d : Char)
    (hh : l.head? = some c) (hc : goIsSpace c = false)
    (hl : l.getLast? = some d) (hd : goIsSpace d = false) : trimChars l = l := by
  unfold trimChars
  rw [dropWhile_eq_self_of_head goIsSpace l c hh hc,
    dropWhile_eq_self_of_head goIsSpace l.reverse d (by rw [List.head?_reverse, hl]) hd,
    List.reverse_reverse]

/-- A message whose trimmed form does not begin with `'='` — such a line
can never be taken for any of the four viper block markers. -/
def plainB (msg : String) : Bool :=
  match (trimChars msg.data).head? with
  | some c => decide (c ≠ '=')
  | none => true

/-- A string whose first non-space character exists and is not `'='`. -/
def safeHeadB (s : String) : Bool :=
  match (s.data.dropWhile goIsSpace).head? with
  | some c => decide (c ≠ '=')
  | none => false

theorem dropWhile_head_append (s t : List Char) (c : Char)
    (h : (s.dropWhile goIsSpace).head? = some c) :
    ((s ++ t).dropWhile goIsSpace).head? = some c := by
  have hne : s.dropWhile goIsSpace ≠ [] := by
    intro hnil
    rw [hnil] at h
    simp at h
  rw [dropWhile_append_of_ne_nil goIsSpace t s hne]
  rcases hm : s.dropWhile goIsSpace with _ | ⟨a, rest⟩
  · exact absurd hm hne
  · rw [hm] at h
    simpa using h

theorem safeHeadB_append (s t : String) (h : safeHeadB s = true) :
    safeHeadB (s ++ t) = true := by
  unfold safeHeadB at h ⊢
  rcases hm : (s.data.dropWhile goIsSpace).head? with _ | c
  · rw [hm] at h
    simp at h
  · rw [hm] at h
    rw [data_append, dropWhile_head_append s.data t.data c hm]
    exact h

theorem plainB_of_safeHead_append (s t : String) (h : safeHeadB s = true) :
    plainB (s ++ t) = true := by
  unfold safeHeadB at h
  unfold plainB
  rcases hm : (s.data.dropWhile goIsSpace).head? with _ | c
  · rw [hm] at h
    simp at h
  · rw [hm] at h
    rw [data_append, trimChars_head, dropWhile_head_append s.data t.data c hm]
    exact h

theorem plainB_of_safeHead (s : String) (h : safeHeadB s = true) :
    plainB s = true := by
  unfold safeHeadB at h
  unfold plainB
  rcases hm : (s.data.dropWhile goIsSpace).head? with _ | c
  · rw [hm] at h
    simp at h
  · rw [hm] at h
    rw [trimChars_head, hm]
    exact h

theorem not_marker_of_plainB (msg : String) (h : plainB msg = true) :
    goHasPref (goTrimSpace msg) ViperCDRBegin = false ∧
    goHasPref (goTrimSpace msg) ViperAgentBegin = false ∧
    ¬ goTrimSpace msg = ViperCDREnd ∧ ¬ goTrimSpace msg = ViperAgentEnd := by
  unfold plainB at h
  have hhead : ¬ (trimChars msg.data).head? = some '=' := by
    rcases hm : (trimChars msg.data).head? with _ | c
    · simp
    · rw [hm] at h
      simp only [decide_eq_true_eq] at h
      simpa using h
  refine ⟨?_, ?_, ?_, ?_⟩
  · rcases hp : goHasPref (goTrimSpace msg) ViperCDRBegin with _ | _
    · rfl
    · exact absurd (charsHasPref_head '=' _ _ hp) hhead
  · rcases hp : goHasPref (goTrimSpace msg) ViperAgentBegin with _ | _
    · rfl
    · exact absurd (charsHasPref_head '=' _ _ hp) hhead
  · intro he
    have : (trimChars msg.data).head? = some '=' := by
      have hd : trimChars msg.data = ViperCDREnd.data := congrArg String.data he
      rw [hd]
      rfl
    exact hhead this
  · intro he
    have : (trimChars msg.data).head? = some '=' := by
      have hd : trimChars msg.data = ViperAgentEnd.data := congrArg String.data he
      rw [hd]
      rfl
    exact hhead this

/-! ### Step and fold lemmas for the viper grouping loop -/

theorem viperStep_plain (now : GoTime) (st : ViperParseState) (msg : String)
    (h : plainB msg = true) :
    viperStep now st msg =
      if st.inBlock ∧ ¬ goTrimSpace msg = "" then
        { st with
          currentLines := st.currentLines ++ [msg]
          currentID := extractIncomingCallID st.currentID msg }
      else st := by
  obtain ⟨h1, h2, h3, h4⟩ := not_marker_of_plainB msg h
  simp only [viperStep]
  rw [h1, h2]
  simp only [Bool.false_eq_true, if_false]
  rw [if_neg (not_or.mpr ⟨h3, h4⟩)]

theorem viperStep_cdr_begin (now : GoTime) (st : ViperParseState) (b : String)
    (hb : goHasPref (goTrimSpace b) ViperCDRBegin = true)
    (hin : st.inBlock = false) :
    viperStep now st b =
      { st with
        currentLines := [goTrimSpace b]
        currentType := "cdr"
        currentID := ""
        inBlock := true } := by
  simp only [viperStep]
  rw [hb]
  simp only [if_true]
  rw [if_neg (fun hc => by rw [hin] at hc; exact absurd hc.1 (by simp))]
  rfl

theorem viperStep_agent_begin (now : GoTime) (st : ViperParseState) (b : String)
    (hb1 : goHasPref (goTrimSpace b) ViperCDRBegin = false)
    (hb2 : goHasPref (goTrimSpace b) ViperAgentBegin = true)
    (hin : st.inBlock = false) :
    viperStep now st b =
      { st with
        currentLines := [goTrimSpace b]
        currentType := "agent"
        currentID := ""
        inBlock := true } := by
  simp only [viperStep]
  rw [hb1, hb2]
  simp only [Bool.false_eq_true, if_false, if_true]
  rw [if_neg (fun hc => by rw [hin] at hc; exact absurd hc.1 (by simp))]

theorem viperStep_end (now : GoTime) (st : ViperParseState) (e : String)
    (h3 : goTrimSpace e = ViperCDREnd ∨ goTrimSpace e = ViperAgentEnd)
    (hin : st.inBlock = true) :
    viperStep now st e =
      { records := st.records ++
          [{ id := st.currentID, type := st.currentType, timestamp := now,
             lines := st.currentLines ++ [goTrimSpace e] }]
        currentLines := []
        currentID := ""
        currentType := ""
        inBlock := false } := by
  have h1 : goHasPref (goTrimSpace e) ViperCDRBegin = false := by
    rcases h3 with h | h <;> rw [h] <;> decide
  have h2 : goHasPref (goTrimSpace e) ViperAgentBegin = false := by
    rcases h3 with h | h <;> rw [h] <;> decide
  simp only [viperStep]
  rw [h1, h2]
  simp only [Bool.false_eq_true, if_false]
  rw [if_pos h3, if_pos (by rw [hin])]

theorem foldl_viperStep_plain_false (now : GoTime) :
    ∀ (msgs : List String) (st : ViperParseState),
      (∀ m ∈ msgs, plainB m = true) → st.inBlock = false →
      msgs.foldl (viperStep now) st = st := by
  intro msgs
  induction msgs with
  | nil => intro st _ _; rfl
  | cons m rest ih =>
    intro st hall hin
    rw [List.foldl_cons, viperStep_plain now st m (hall m (List.mem_cons_self _ _)),
      if_neg (fun hc => by rw [hin] at hc; exact absurd hc.1 (by simp))]
    exact ih st (fun x hx => hall x (List.mem_cons_of_mem _ hx)) hin

theorem foldl_viperStep_plain_true (now : GoTime) :
    ∀ (msgs : List String) (st : ViperParseState),
      (∀ m ∈ msgs, plainB m = true) → st.inBlock = true →
      ((msgs.foldl (viperStep now) st).records = st.records ∧
        (msgs.foldl (viperStep now) st).inBlock = true ∧
        (msgs.foldl (viperStep now) st).currentType = st.currentType) := by
  intro msgs
  induction msgs with
  | nil => intro st _ hin; exact ⟨rfl, hin, rfl⟩
  | cons m rest ih =>
    intro st hall hin
    rw [List.foldl_cons, viperStep_plain now st m (hall m (List.mem_cons_self _ _))]
    by_cases hc : st.inBlock ∧ ¬ goTrimSpace m = ""
    · rw [if_pos hc]
      exact ih _ (fun x hx => hall x (List.mem_cons_of_mem _ hx)) hin
    · rw [if_neg hc]
      exact ih _ (fun x hx => hall x (List.mem_cons_of_mem _ hx)) hin

theorem foldl_viperStep_content (now : GoTime) :
    ∀ (msgs : List String) (st : ViperParseState),
      (∀ m ∈ msgs, plainB m = true ∧ ¬ goTrimSpace m = "") → st.inBlock = true →
      msgs.foldl (viperStep now) st =
        { st with
          currentLines := st.currentLines ++ msgs
          currentID := msgs.foldl (fun id m => extractIncomingCallID id m) st.currentID } := by
  intro msgs
  induction msgs with
  | nil => intro st _ _; simp
  | cons m rest ih =>
    intro st hall hin
    have hm := hall m (List.mem_cons_self _ _)
    rw [List.foldl_cons, viperStep_plain now st m hm.1,
      if_pos ⟨by rw [hin], hm.2⟩]
    have hstep := ih
      { st with
        currentLines := st.currentLines ++ [m]
        currentID := extractIncomingCallID st.currentID m }
      (fun x hx => hall x (List.mem_cons_of_mem _ hx)) hin
    rw [hstep]
    simp

/-! ### Step and fold lemmas for the vesta grouping loop -/

theorem vestaStep_content (now : GoTime) (st : VestaParseState) (msg : String)
    (h1 : msg ≠ VestaSeparator) (h2 : msg ≠ "") :
    vestaStep now st msg =
      { st with
        currentID := extractVestaCallID st.currentID msg
        currentLines := st.currentLines ++ [msg] } := by
  unfold vestaStep
  rw [if_neg h1, if_neg h2]

theorem vestaStep_sep (now : GoTime) (st : VestaParseState)
    (hl : st.currentLines ≠ []) :
    vestaStep now st VestaSeparator =
      { records := st.records ++
          [{ id := st.currentID, type := "cdr", timestamp := now,
             lines := st.currentLines ++ [VestaSeparator] }]
        currentLines := []
        currentID := "" } := by
  unfold vestaStep
  rw [if_pos rfl, if_pos hl]

/-- `firstCharNe s c`: `s` is non-empty and does not start with `c`. -/
def firstCharNe (s : String) (c : Char) : Bool :=
  match s.data.head? with
  | some a => decide (a ≠ c)
  | none => false

theorem firstCharNe_append (s t : String) (c : Char)
    (h : firstCharNe s c = true) : firstCharNe (s ++ t) c = true := by
  unfold firstCharNe at h ⊢
  rcases hm : s.data.head? with _ | a
  · rw [hm] at h
    simp at h
  · rw [hm] at h
    rw [data_append]
    rcases hd : s.data with _ | ⟨x, xs⟩
    · rw [hd] at hm
      simp at hm
    · rw [hd] at hm
      simp only [List.head?_cons, Option.some.injEq] at hm
      simp only [List.cons_append, List.head?_cons, hm]
      exact h

theorem ne_of_firstCharNe (s u : String) (c : Char)
    (h : firstCharNe s c = true) (hu : u.data.head? = some c) :
    s ≠ u ∧ s ≠ "" := by
  unfold firstCharNe at h
  rcases hm : s.data.head? with _ | a
  · rw [hm] at h
    simp at h
  · rw [hm] at h
    simp only [decide_eq_true_eq] at h
    constructor
    · intro he
      rw [he] at hm
      rw [hm] at hu
      exact h (Option.some.inj hu)
    · intro he
      rw [he] at hm
      simp at hm

theorem firstCharNe_strTake (s : String) (n : Nat) (c : Char)
    (h : firstCharNe s c = true) (hn : 0 < n) : firstCharNe (strTake s n) c = true := by
  unfold firstCharNe at h ⊢
  unfold strTake
  rcases hd : s.data with _ | ⟨x, xs⟩
  · rw [hd] at h
    simp at h
  · rw [hd] at h
    simp only [List.head?_cons] at h
    cases n with
    | zero => exact absurd hn (by simp)
    | succ m =>
      simp only [List.take_succ_cons, List.head?_cons]
      exact h

set_option maxRecDepth 10000 in
/-- `%03d` of any value in `[100, 999]` starts with a digit, hence not
with `-` (nor `=`). -/
theorem pad3_firstCharNe_dash :
    ∀ x, x < 1000 → 100 ≤ x → firstCharNe (pad3 x) '-' = true := by decide

theorem ani_firstCharNe_dash (a e s : Nat) :
    firstCharNe (formatPhone (200 + a % 800) (200 + e % 800) (s % 10000)) '-' = true := by
  unfold formatPhone
  apply firstCharNe_append
  apply firstCharNe_append
  exact pad3_firstCharNe_dash (200 + a % 800)
    (by have := Nat.mod_lt a (show 0 < 800 by decide); omega)
    (by omega)

theorem fpd_firstCharNe_dash (phone : String)
    (h : firstCharNe phone '-' = true) :
    firstCharNe (formatPhoneWithDashes phone) '-' = true := by
  unfold formatPhoneWithDashes
  split
  · apply firstCharNe_append
    apply firstCharNe_append
    apply firstCharNe_append
    apply firstCharNe_append
    exact firstCharNe_strTake phone 3 '-' h (by decide)
  · exact h

theorem sipIDDraws_length (σ : RandStream) :
    ∀ (n : Nat) (r : GoRand), (sipIDDraws σ n r).1.data.length = n := by
  intro n
  induction n with
  | zero => intro r; rfl
  | succ m ih =>
    intro r
    unfold sipIDDraws
    simp only [data_append, List.length_append, ih]
    rw [List.length_singleton]
    omega

theorem ne_of_data_length (s u : String) (h : s.data.length ≠ u.data.length) :
    s ≠ u := by
  intro he
  rw [he] at h
  exact h rfl

/-! ### The one-record block grammar of generated output -/

/-- One vesta block: non-empty, non-separator content lines followed by
the separator. -/
def VestaContentThenSep : List String → Prop
  | [] => False
  | [e] => e = VestaSeparator
  | m :: rest => (m ≠ VestaSeparator ∧ m ≠ "") ∧ VestaContentThenSep rest

theorem vesta_fold_flush (now : GoTime) :
    ∀ (msgs : List String), VestaContentThenSep msgs → ∀ (st : VestaParseState),
      st.currentLines ≠ [] →
      (vestaFlush now (List.foldl (vestaStep now) st msgs)).map CDRRecord.type =
        st.records.map CDRRecord.type ++ ["cdr"] := by
  intro msgs
  induction msgs with
  | nil => intro h; exact h.elim
  | cons m rest ih =>
    intro h st hl
    cases rest with
    | nil =>
      have hm : m = VestaSeparator := h
      subst hm
      rw [List.foldl_cons, List.foldl_nil, vestaStep_sep now st hl]
      unfold vestaFlush
      rw [if_neg (by simp)]
      simp
    | cons x xs =>
      have hm : (m ≠ VestaSeparator ∧ m ≠ "") ∧ VestaContentThenSep (x :: xs) := h
      rw [List.foldl_cons, vestaStep_content now st m hm.1.1 hm.1.2]
      exact ih hm.2 _ (by simp)

/-- A line that matches none of the four viper markers. -/
def nonMarkerB (msg : String) : Bool :=
  !goHasPref (goTrimSpace msg) ViperCDRBegin &&
    (!goHasPref (goTrimSpace msg) ViperAgentBegin &&
      (!decide (goTrimSpace msg = ViperCDREnd) &&
        !decide (goTrimSpace msg = ViperAgentEnd)))

theorem nonMarkerB_spec (msg : String) (h : nonMarkerB msg = true) :
    goHasPref (goTrimSpace msg) ViperCDRBegin = false ∧
    goHasPref (goTrimSpace msg) ViperAgentBegin = false ∧
    ¬ goTrimSpace msg = ViperCDREnd ∧ ¬ goTrimSpace msg = ViperAgentEnd := by
  unfold nonMarkerB at h
  simp only [Bool.and_eq_true, Bool.not_eq_true', decide_eq_false_iff_not] at h
  exact ⟨h.1, h.2.1, h.2.2.1, h.2.2.2⟩

theorem nonMarkerB_of_plainB (msg : String) (h : plainB msg = true) :
    nonMarkerB msg = true := by
  obtain ⟨h1, h2, h3, h4⟩ := not_marker_of_plainB msg h
  unfold nonMarkerB
  simp [h1, h2, h3, h4]

/-- A non-marker line combining a marker-safe head with an arbitrary
tail. -/
theorem nonMarkerB_append_lit (s t : String) (h : safeHeadB s = true) :
    nonMarkerB (s ++ t) = true :=
  nonMarkerB_of_plainB _ (plainB_of_safeHead_append s t h)

theorem viperStep_nonmarker (now : GoTime) (st : ViperParseState) (msg : String)
    (h : nonMarkerB msg = true) :
    viperStep now st msg =
      if st.inBlock ∧ ¬ goTrimSpace msg = "" then
        { st with
          currentLines := st.currentLines ++ [msg]
          currentID := extractIncomingCallID st.currentID msg }
      else st := by
  obtain ⟨h1, h2, h3, h4⟩ := nonMarkerB_spec msg h
  simp only [viperStep]
  rw [h1, h2]
  simp only [Bool.false_eq_true, if_false]
  rw [if_neg (not_or.mpr ⟨h3, h4⟩)]

theorem foldl_viperStep_content_nonmarker (now : GoTime) :
    ∀ (msgs : List String) (st : ViperParseState),
      (∀ m ∈ msgs, nonMarkerB m = true ∧ ¬ goTrimSpace m = "") → st.inBlock = true →
      msgs.foldl (viperStep now) st =
        { st with
          currentLines := st.currentLines ++ msgs
          currentID := msgs.foldl (fun id m => extractIncomingCallID id m) st.currentID } := by
  intro msgs
  induction msgs with
  | nil => intro st _ _; simp
  | cons m rest ih =>
    intro st hall hin
    have hm := hall m (List.mem_cons_self _ _)
    rw [List.foldl_cons, viperStep_nonmarker now st m hm.1,
      if_pos ⟨by rw [hin], hm.2⟩]
    have hstep := ih
      { st with
        currentLines := st.currentLines ++ [m]
        currentID := extractIncomingCallID st.currentID m }
      (fun x hx => hall x (List.mem_cons_of_mem _ hx)) hin
    rw [hstep]
    simp

/-- C9: over the sorted message stream, a block opened by a `BEGIN`
marker (of either kind) and closed by an `END` marker is emitted with
its captured content verbatim and that marker line as its last line;
the same block reaching end-of-input without an `END` marker is still
emitted, its last line being the last captured message, with no
synthesized end marker.  `content` ranges over exactly the lines the
parser captures inside a block: non-blank and matching none of the four
markers (`nonMarkerB`), which admits `'='`-headed banners such as the
generated `"=====   Initial ALI   ===="` line. -/
theorem c9_viper_block_emission (now : GoTime) (b : String)
    (content : List String) (e : String)
    (hb : goHasPref (goTrimSpace b) ViperCDRBegin = true ∨
      (goHasPref (goTrimSpace b) ViperCDRBegin = false ∧
        goHasPref (goTrimSpace b) ViperAgentBegin = true))
    (hc : ∀ m ∈ content, nonMarkerB m = true ∧ ¬ goTrimSpace m = "")
    (he : goTrimSpace e = ViperCDREnd ∨ goTrimSpace e = ViperAgentEnd) :
    (viperSegment now (b :: (content ++ [e]))).map CDRRecord.lines =
      [goTrimSpace b :: (content ++ [goTrimSpace e])] ∧
    (viperSegment now (b :: content)).map CDRRecord.lines =
      [goTrimSpace b :: content] := by
  obtain ⟨τ, h1⟩ : ∃ τ, viperStep now ({} : ViperParseState) b =
      { records := [], currentLines := [goTrimSpace b], currentID := "",
        currentType := τ, inBlock := true } := by
    rcases hb with hb | ⟨hb1, hb2⟩
    · exact ⟨"cdr", viperStep_cdr_begin now {} b hb rfl⟩
    · exact ⟨"agent", viperStep_agent_begin now {} b hb1 hb2 rfl⟩
  have h2 := foldl_viperStep_content_nonmarker now content
    { records := [], currentLines := [goTrimSpace b], currentID := "",
      currentType := τ, inBlock := true } hc rfl
  constructor
  · unfold viperSegment
    rw [List.foldl_cons, h1, List.foldl_append, h2, List.foldl_cons,
      List.foldl_nil, viperStep_end now _ e he rfl]
    unfold viperFlush
    rw [if_neg (fun hcond => by simpa using hcond.1)]
    simp
  · unfold viperSegment
    rw [List.foldl_cons, h1, h2]
    unfold viperFlush
    rw [if_pos ⟨rfl, by simp⟩]
    simp

/-- Witness for `c9_viper_block_emission` on a concrete CDR block whose
content includes the `'='`-headed ALI banner the generator emits inside
every CDR block. -/
theorem c9_viper_block_emission_witness :
    (viperSegment {} ("===== CDR BEGIN : 01/02/06 10:00:00.000 =====" ::
        (["00:00:00.000 [VoIP] Call Presented",
          "=====   Initial ALI   ====",
          "00:00:00.104 [VoIP] Call Connected"] ++ ["===== CDR END ====="]))).map
        CDRRecord.lines =
      [goTrimSpace "===== CDR BEGIN : 01/02/06 10:00:00.000 =====" ::
        (["00:00:00.000 [VoIP] Call Presented",
          "=====   Initial ALI   ====",
          "00:00:00.104 [VoIP] Call Connected"] ++
          [goTrimSpace "===== CDR END ====="])] ∧
    (viperSegment {} ("===== CDR BEGIN : 01/02/06 10:00:00.000 =====" ::
        ["00:00:00.000 [VoIP] Call Presented",
         "=====   Initial ALI   ====",
         "00:00:00.104 [VoIP] Call Connected"])).map CDRRecord.lines =
      [goTrimSpace "===== CDR BEGIN : 01/02/06 10:00:00.000 =====" ::
        ["00:00:00.000 [VoIP] Call Presented",
         "=====   Initial ALI   ====",
         "00:00:00.104 [VoIP] Call Connected"]] :=
  c9_viper_block_emission {} "===== CDR BEGIN : 01/02/06 10:00:00.000 ====="
    ["00:00:00.000 [VoIP] Call Presented", "=====   Initial ALI   ====",
     "00:00:00.104 [VoIP] Call Connected"]
    "===== CDR END ====="
    (Or.inl (by decide)) (by decide) (Or.inl (by decide))

/-- An `END` marker line (either kind) after trimming. -/
def isEndLine (m : String) : Prop :=
  goTrimSpace m = ViperCDREnd ∨ goTrimSpace m = ViperAgentEnd

/-- An `AGENT BEGIN` marker line after trimming. -/
def isAgentBeginLine (m : String) : Prop :=
  goHasPref (goTrimSpace m) ViperCDRBegin = false ∧
    goHasPref (goTrimSpace m) ViperAgentBegin = true

/-- In-block lines followed by an `END` marker closing the list. -/
def ContentThenEnd : List String → Prop
  | [] => False
  | [e] => isEndLine e
  | m :: rest => nonMarkerB m = true ∧ ContentThenEnd rest

/-- What may follow a completed block: skipped filler lines and then one
agent block. -/
def AfterFirstBlock : List String → Prop
  | [] => False
  | m :: rest =>
    (nonMarkerB m = true ∧ AfterFirstBlock rest) ∨
      (isAgentBeginLine m ∧ ContentThenEnd rest)

/-- The tail of a two-block record: first-block content up to its `END`
marker, then fillers and the agent block. -/
def CdrThenAgent : List String → Prop
  | [] => False
  | m :: rest =>
    (nonMarkerB m = true ∧ CdrThenAgent rest) ∨
      (isEndLine m ∧ AfterFirstBlock rest)

theorem fold_ContentThenEnd (now : GoTime) :
    ∀ (msgs : List String), ContentThenEnd msgs → ∀ (st : ViperParseState),
      st.inBlock = true →
      ∃ rec : CDRRecord, rec.type = st.currentType ∧
        List.foldl (viperStep now) st msgs =
          { records := st.records ++ [rec], currentLines := [], currentID := "",
            currentType := "", inBlock := false } := by
  intro msgs
  induction msgs with
  | nil => intro h; exact h.elim
  | cons m rest ih =>
    intro h st hin
    cases rest with
    | nil =>
      have hm : isEndLine m := h
      rw [List.foldl_cons, List.foldl_nil, viperStep_end now st m hm hin]
      exact ⟨_, rfl, rfl⟩
    | cons x xs =>
      have hm : nonMarkerB m = true ∧ ContentThenEnd (x :: xs) := h
      rw [List.foldl_cons, viperStep_nonmarker now st m hm.1]
      by_cases hc : st.inBlock = true ∧ ¬ goTrimSpace m = ""
      · rw [if_pos hc]
        obtain ⟨rec, ht, he⟩ := ih hm.2
          { st with
            currentLines := st.currentLines ++ [m]
            currentID := extractIncomingCallID st.currentID m } hin
        exact ⟨rec, ht, by rw [he]⟩
      · rw [if_neg hc]
        exact ih hm.2 st hin

theorem fold_AfterFirstBlock (now : GoTime) :
    ∀ (msgs : List String), AfterFirstBlock msgs → ∀ (st : ViperParseState),
      st.inBlock = false →
      (viperFlush now (List.foldl (viperStep now) st msgs)).map CDRRecord.type =
        st.records.map CDRRecord.type ++ ["agent"] := by
  intro msgs
  induction msgs with
  | nil => intro h; exact h.elim
  | cons m rest ih =>
    intro h st hin
    rcases (h : (nonMarkerB m = true ∧ AfterFirstBlock rest) ∨
        (isAgentBeginLine m ∧ ContentThenEnd rest)) with ⟨hm, hrest⟩ | ⟨hm, hrest⟩
    · rw [List.foldl_cons, viperStep_nonmarker now st m hm,
        if_neg (fun hcond => by rw [hin] at hcond; exact absurd hcond.1 (by simp))]
      exact ih hrest st hin
    · rw [List.foldl_cons, viperStep_agent_begin now st m hm.1 hm.2 hin]
      obtain ⟨rec, ht, he⟩ := fold_ContentThenEnd now rest hrest
        { st with
          currentLines := [goTrimSpace m]
          currentType := "agent"
          currentID := ""
          inBlock := true } rfl
      rw [he]
      unfold viperFlush
      rw [if_neg (fun hcond => by simpa using hcond.1)]
      simp [ht]

theorem fold_CdrThenAgent (now : GoTime) :
    ∀ (msgs : List String), CdrThenAgent msgs → ∀ (st : ViperParseState),
      st.inBlock = true →
      (viperFlush now (List.foldl (viperStep now) st msgs)).map CDRRecord.type =
        st.records.map CDRRecord.type ++ [st.currentType, "agent"] := by
  intro msgs
  induction msgs with
  | nil => intro h; exact h.elim
  | cons m rest ih =>
    intro h st hin
    rcases (h : (nonMarkerB m = true ∧ CdrThenAgent rest) ∨
        (isEndLine m ∧ AfterFirstBlock rest)) with ⟨hm, hrest⟩ | ⟨hm, hrest⟩
    · rw [List.foldl_cons, viperStep_nonmarker now st m hm]
      by_cases hc : st.inBlock = true ∧ ¬ goTrimSpace m = ""
      · rw [if_pos hc]
        exact ih hrest _ hin
      · rw [if_neg hc]
        exact ih hrest st hin
    · rw [List.foldl_cons, viperStep_end now st m hm hin]
      rw [fold_AfterFirstBlock now rest hrest
        { records := st.records ++
            [{ id := st.currentID, type := st.currentType, timestamp := now,
               lines := st.currentLines ++ [goTrimSpace m] }]
          currentLines := []
          currentID := ""
          currentType := ""
          inBlock := false } rfl]
      simp

theorem fold_ContentThenEnd_flush (now : GoTime) (msgs : List String)
    (h : ContentThenEnd msgs) (st : ViperParseState) (hin : st.inBlock = true) :
    (viperFlush now (List.foldl (viperStep now) st msgs)).map CDRRecord.type =
      st.records.map CDRRecord.type ++ [st.currentType] := by
  obtain ⟨rec, ht, he⟩ := fold_ContentThenEnd now msgs h st hin
  rw [he]
  unfold viperFlush
  rw [if_neg (fun hcond => by simpa using hcond.1)]
  simp [ht]

/-! ### Head and last facts about the generated marker lines -/

theorem head_append_of_head {α : Type} (s t : List α) (c : α)
    (h : s.head? = some c) : (s ++ t).head? = some c := by
  cases s with
  | nil => simp at h
  | cons a as => simpa using h

theorem getLast_append_of_getLast {α : Type} (s t : List α) (c : α)
    (h : t.getLast? = some c) : (s ++ t).getLast? = some c := by
  rw [List.getLast?_append, h]
  rfl

/-- A string whose first and last characters exist and are non-space
trims to itself. -/
theorem goTrimSpace_eq_self (s : String) (c d : Char)
    (hh : s.data.head? = some c) (hc : goIsSpace c = false)
    (hl : s.data.getLast? = some d) (hd : goIsSpace d = false) :
    goTrimSpace s = s := by
  unfold goTrimSpace
  rw [trimChars_eq_self s.data c d hh hc hl hd]

/-- The generated `CDR BEGIN` line trims to itself. -/
theorem cdrBegin_trim (f : String) :
    goTrimSpace (("===== CDR BEGIN : " ++ f) ++ " =====") =
      ("===== CDR BEGIN : " ++ f) ++ " =====" := by
  apply goTrimSpace_eq_self _ '=' '='
  · rw [data_append]
    apply head_append_of_head
    rw [data_append]
    apply head_append_of_head
    decide
  · decide
  · rw [data_append]
    apply getLast_append_of_getLast
    decide
  · decide

/-- The generated `AGENT BEGIN` line trims to itself. -/
theorem agentBegin_trim (f : String) :
    goTrimSpace (("===== AGENT BEGIN : " ++ f) ++ " =====") =
      ("===== AGENT BEGIN : " ++ f) ++ " =====" := by
  apply goTrimSpace_eq_self _ '=' '='
  · rw [data_append]
    apply head_append_of_head
    rw [data_append]
    apply head_append_of_head
    decide
  · decide
  · rw [data_append]
    apply getLast_append_of_getLast
    decide
  · decide

/-- The generated `CDR BEGIN` line carries the begin marker prefix. -/
theorem cdrBegin_line_pref (f : String) :
    goHasPref (goTrimSpace (("===== CDR BEGIN : " ++ f) ++ " ====="))
      ViperCDRBegin = true := by
  rw [cdrBegin_trim f]
  unfold goHasPref
  rw [data_append, data_append]
  apply charsHasPref_append_of
  apply charsHasPref_append_of
  decide

theorem agentBegin_not_cdr_pref (f : String) :
    charsHasPref (("===== AGENT BEGIN : ".data ++ f.data) ++ " =====".data)
      ViperCDRBegin.data = false := by
  have h17 : ViperCDRBegin.data.length = 17 := rfl
  have h20 : ("===== AGENT BEGIN : ").data.length = 20 := rfl
  have h1 : ViperCDRBegin.data.length ≤
      ("===== AGENT BEGIN : ".data ++ f.data).length := by
    rw [List.length_append, h17, h20]
    omega
  rw [charsHasPref_of_append_le _ _ _ h1]
  have h2 : ViperCDRBegin.data.length ≤ ("===== AGENT BEGIN : ").data.length := by
    rw [h17, h20]
    omega
  rw [charsHasPref_of_append_le _ _ _ h2]
  decide

/-- The generated `AGENT BEGIN` line is an agent-begin marker and not a
cdr-begin marker. -/
theorem agentBegin_line (f : String) :
    isAgentBeginLine (("===== AGENT BEGIN : " ++ f) ++ " =====") := by
  unfold isAgentBeginLine
  rw [agentBegin_trim f]
  constructor
  · unfold goHasPref
    rw [data_append, data_append]
    exact agentBegin_not_cdr_pref f
  · unfold goHasPref
    rw [data_append, data_append]
    apply charsHasPref_append_of
    apply charsHasPref_append_of
    decide

/-- `formatDuration` of a duration below one hour starts with a zero
digit, hence is marker-safe. -/
theorem formatDuration_safeHead (d : GoDuration) (h0 : 0 ≤ d)
    (hlt : d < 3600000000000) : safeHeadB (formatDuration d) = true := by
  obtain ⟨n, rfl⟩ := Int.eq_ofNat_of_zero_le h0
  have hn : n < 3600000000000 := by exact_mod_cast hlt
  have hz : ((n : Int)).tdiv 3600000000000 = 0 := by
    show Int.ofNat (n / 3600000000000) = 0
    rw [Nat.div_eq_of_lt hn]
    rfl
  simp only [formatDuration]
  rw [hz]
  repeat apply safeHeadB_append
  decide

/-- Pool lookup with a mod-reduced index stays in the pool. -/
theorem getD_mod_mem {α : Type} (l : List α) (d : α) (v : Nat)
    (h : 0 < l.length) : l.getD (v % l.length) d ∈ l := by
  have hlt : v % l.length < l.length := Nat.mod_lt _ h
  rw [List.getD_eq_getElem l d hlt]
  exact List.getElem_mem hlt

theorem locations_address_upper_safe :
    ∀ loc ∈ defaultLocations, safeHeadB (goToUpper loc.address) = true := by decide

theorem locations_address_take_safe :
    ∀ loc ∈ defaultLocations,
      safeHeadB (strTake loc.address (min 16 loc.address.data.length)) = true := by
  decide

theorem locations_city_safe :
    ∀ loc ∈ defaultLocations, safeHeadB loc.city = true := by decide

theorem carriers_name_safe :
    ∀ c ∈ defaultCarriers, safeHeadB c.name = true := by decide

/-- `RandomDuration σ ctx 30 300` with the branch on `300 ≤ 30` and the
span `(300 - 30).toNat` evaluated. -/
theorem RandomDuration_unfold (σ : RandStream) (ctx : GenerationContext) :
    GenerationContext.RandomDuration σ ctx 30 300 =
      ((30 + ((σ ctx.random.seed ctx.random.pos % 270 : Nat) : Int)) * secondNs,
        { ctx with random := { ctx.random with pos := ctx.random.pos + 1 } }) := by
  unfold GenerationContext.RandomDuration
  rw [if_neg (by decide)]
  rfl

/-- The duration stamp of the disconnect line is marker-safe. -/
theorem duration_base_safeHead (v : Nat) :
    safeHeadB (formatDuration ((30 + ((v % 270 : Nat) : Int)) * secondNs)) = true := by
  apply formatDuration_safeHead
  · show (0:Int) ≤ (30 + ((v % 270 : Nat) : Int)) * 1000000000
    omega
  · show ((30 + ((v % 270 : Nat) : Int)) * 1000000000 : Int) < 3600000000000
    omega

/-- The duration stamp of the termination lines is marker-safe. -/
theorem duration_shift_safeHead (v : Nat) :
    safeHeadB (formatDuration
      ((30 + ((v % 270 : Nat) : Int)) * secondNs + 73 * millisecondNs)) = true := by
  apply formatDuration_safeHead
  · show (0:Int) ≤ (30 + ((v % 270 : Nat) : Int)) * 1000000000 + 73 * 1000000
    omega
  · show ((30 + ((v % 270 : Nat) : Int)) * 1000000000 + 73 * 1000000 : Int) < 3600000000000
    omega

set_option maxHeartbeats 1000000 in
/-- C4 (amended): a record produced by `GenerateViperRecord` re-parses
into one `cdr` block when no agent block was appended and into a `cdr`
block plus an `agent` block when one was (the ~70% coin), and a record
produced by `GenerateVestaRecord` always re-parses into exactly one
block. -/
theorem c4_generated_record_blocks (σ : RandStream) (wall now₂ : GoTime)
    (ctx : GenerationContext)
    (hloc : ctx.locationPool = defaultLocations)
    (hcar : ctx.carrierPool = defaultCarriers) :
    ((viperSegment now₂ (GenerateViperRecord σ wall ctx).1.lines).map CDRRecord.type
        = ["cdr"] ∨
      (viperSegment now₂ (GenerateViperRecord σ wall ctx).1.lines).map CDRRecord.type
        = ["cdr", "agent"]) ∧
    (vestaSegment now₂ (GenerateVestaRecord σ wall ctx).1.lines).map CDRRecord.type
      = ["cdr"] := by
  constructor
  · simp only [GenerateViperRecord, GenerationContext.NextCallNumber,
      GenerationContext.RandomPhoneNumber, GenerationContext.RandomLocation,
      GenerationContext.RandomCarrier, GenerationContext.RandomAgent,
      RandomDuration_unfold, GenerationContext.intn, GenerationContext.floatRaw,
      GenerationContext.agentCoin, randIntn, randNext, randFloatRaw, randAgentCoin,
      generateAgentBlock, hloc, hcar]
    split
    case isTrue h =>
      right
      simp only [List.cons_append, List.nil_append]
      unfold viperSegment
      rw [List.foldl_cons, viperStep_cdr_begin now₂ _ _ (cdrBegin_line_pref _) rfl]
      refine fold_CdrThenAgent now₂ _ ?_ _ rfl
      -- line 2: system id
      refine Or.inl ⟨?_, ?_⟩
      · exact nonMarkerB_append_lit _ _ (by decide)
      -- line 3: incoming call
      refine Or.inl ⟨?_, ?_⟩
      · refine nonMarkerB_append_lit _ _ ?_
        repeat apply safeHeadB_append
        decide
      -- line 4: trunk group
      refine Or.inl ⟨?_, ?_⟩
      · exact nonMarkerB_append_lit _ _ (by decide)
      -- line 5: call presented
      refine Or.inl ⟨?_, ?_⟩
      · decide
      -- line 6: ANI
      refine Or.inl ⟨?_, ?_⟩
      · refine nonMarkerB_append_lit _ _ ?_
        repeat apply safeHeadB_append
        decide
      -- line 7: initial ALI request
      refine Or.inl ⟨?_, ?_⟩
      · exact nonMarkerB_append_lit _ _ (by decide)
      -- line 8: external call identifier
      refine Or.inl ⟨?_, ?_⟩
      · refine nonMarkerB_append_lit _ _ ?_
        repeat apply safeHeadB_append
        decide
      -- line 9: call connected
      refine Or.inl ⟨?_, ?_⟩
      · decide
      -- line 10: routing queue
      refine Or.inl ⟨?_, ?_⟩
      · exact nonMarkerB_append_lit _ _ (by decide)
      -- line 11: initial ALI response
      refine Or.inl ⟨?_, ?_⟩
      · decide
      -- line 12: caller disconnected (duration-stamped)
      refine Or.inl ⟨?_, ?_⟩
      · exact nonMarkerB_append_lit _ _ (duration_base_safeHead _)
      -- line 13: call terminated
      refine Or.inl ⟨?_, ?_⟩
      · exact nonMarkerB_append_lit _ _ (duration_shift_safeHead _)
      -- line 14: call completed
      refine Or.inl ⟨?_, ?_⟩
      · exact nonMarkerB_append_lit _ _ (duration_shift_safeHead _)
      -- line 15: blank
      refine Or.inl ⟨?_, ?_⟩
      · decide
      -- line 16: initial ALI banner
      refine Or.inl ⟨?_, ?_⟩
      · decide
      -- line 17: blank
      refine Or.inl ⟨?_, ?_⟩
      · decide
      -- line 18: ALI phone header
      refine Or.inl ⟨?_, ?_⟩
      · refine nonMarkerB_append_lit _ _ ?_
        repeat apply safeHeadB_append
        decide
      -- line 19: carrier name
      refine Or.inl ⟨?_, ?_⟩
      · refine nonMarkerB_append_lit _ _ ?_
        exact carriers_name_safe _ (getD_mod_mem _ _ _ (by decide))
      -- line 20: padded address prefix
      refine Or.inl ⟨?_, ?_⟩
      · unfold padRightTo
        refine nonMarkerB_append_lit _ _ ?_
        exact locations_address_take_safe _ (getD_mod_mem _ _ _ (by decide))
      -- line 21: uppercased address with sector
      refine Or.inl ⟨?_, ?_⟩
      · refine nonMarkerB_append_lit _ _ ?_
        apply safeHeadB_append
        apply safeHeadB_append
        exact locations_address_upper_safe _ (getD_mod_mem _ _ _ (by decide))
      -- line 22: blank
      refine Or.inl ⟨?_, ?_⟩
      · decide
      -- line 23: spaces
      refine Or.inl ⟨?_, ?_⟩
      · decide
      -- line 24: city and ESN
      refine Or.inl ⟨?_, ?_⟩
      · refine nonMarkerB_append_lit _ _ ?_
        apply safeHeadB_append
        unfold padRightTo
        apply safeHeadB_append
        exact locations_city_safe _ (getD_mod_mem _ _ _ (by decide))
      -- line 25: carrier code / PSAP / POS
      refine Or.inl ⟨?_, ?_⟩
      · refine nonMarkerB_append_lit _ _ ?_
        repeat apply safeHeadB_append
        decide
      -- line 26: spaces
      refine Or.inl ⟨?_, ?_⟩
      · decide
      -- line 27: spaces
      refine Or.inl ⟨?_, ?_⟩
      · decide
      -- line 28: P# phone
      refine Or.inl ⟨?_, ?_⟩
      · refine nonMarkerB_append_lit _ _ ?_
        repeat apply safeHeadB_append
        decide
      -- line 29: UNC accuracy
      refine Or.inl ⟨?_, ?_⟩
      · refine nonMarkerB_append_lit _ _ ?_
        repeat apply safeHeadB_append
        decide
      -- line 30: coordinates
      refine Or.inl ⟨?_, ?_⟩
      · refine nonMarkerB_append_lit _ _ ?_
        repeat apply safeHeadB_append
        decide
      -- line 31: blank
      refine Or.inl ⟨?_, ?_⟩
      · decide
      -- line 32: CDR END marker
      refine Or.inr ⟨Or.inl (by decide), ?_⟩
      -- separator blank between the blocks
      refine Or.inl ⟨?_, ?_⟩
      · decide
      -- agent line 1: AGENT BEGIN marker
      refine Or.inr ⟨?_, ?_⟩
      · exact agentBegin_line _
      -- agent line 2: on call
      refine ⟨?_, ?_⟩
      · refine nonMarkerB_append_lit _ _ ?_
        repeat apply safeHeadB_append
        decide
      -- agent line 3: direction
      refine ⟨?_, ?_⟩
      · decide
      -- agent line 4: route
      refine ⟨?_, ?_⟩
      · exact nonMarkerB_append_lit _ _ (by decide)
      -- agent line 5: vipernode
      refine ⟨?_, ?_⟩
      · decide
      -- agent line 6: agent identity
      refine ⟨?_, ?_⟩
      · refine nonMarkerB_append_lit _ _ ?_
        repeat apply safeHeadB_append
        decide
      -- agent line 7: psap id
      refine ⟨?_, ?_⟩
      · refine nonMarkerB_append_lit _ _ ?_
        repeat apply safeHeadB_append
        decide
      -- agent line 8: pos / stn
      refine ⟨?_, ?_⟩
      · refine nonMarkerB_append_lit _ _ ?_
        repeat apply safeHeadB_append
        decide
      -- agent line 9: AGENT END marker
      exact Or.inr (by decide)
    case isFalse h =>
      left
      unfold viperSegment
      rw [List.foldl_cons, viperStep_cdr_begin now₂ _ _ (cdrBegin_line_pref _) rfl]
      refine fold_ContentThenEnd_flush now₂ _ ?_ _ rfl
      refine ⟨?_, ?_⟩
      · exact nonMarkerB_append_lit _ _ (by decide)
      refine ⟨?_, ?_⟩
      · refine nonMarkerB_append_lit _ _ ?_
        repeat apply safeHeadB_append
        decide
      refine ⟨?_, ?_⟩
      · exact nonMarkerB_append_lit _ _ (by decide)
      refine ⟨?_, ?_⟩
      · decide
      refine ⟨?_, ?_⟩
      · refine nonMarkerB_append_lit _ _ ?_
        repeat apply safeHeadB_append
        decide
      refine ⟨?_, ?_⟩
      · exact nonMarkerB_append_lit _ _ (by decide)
      refine ⟨?_, ?_⟩
      · refine nonMarkerB_append_lit _ _ ?_
        repeat apply safeHeadB_append
        decide
      refine ⟨?_, ?_⟩
      · decide
      refine ⟨?_, ?_⟩
      · exact nonMarkerB_append_lit _ _ (by decide)
      refine ⟨?_, ?_⟩
      · decide
      refine ⟨?_, ?_⟩
      · exact nonMarkerB_append_lit _ _ (duration_base_safeHead _)
      refine ⟨?_, ?_⟩
      · exact nonMarkerB_append_lit _ _ (duration_shift_safeHead _)
      refine ⟨?_, ?_⟩
      · exact nonMarkerB_append_lit _ _ (duration_shift_safeHead _)
      refine ⟨?_, ?_⟩
      · decide
      refine ⟨?_, ?_⟩
      · decide
      refine ⟨?_, ?_⟩
      · decide
      refine ⟨?_, ?_⟩
      · refine nonMarkerB_append_lit _ _ ?_
        repeat apply safeHeadB_append
        decide
      refine ⟨?_, ?_⟩
      · refine nonMarkerB_append_lit _ _ ?_
        exact carriers_name_safe _ (getD_mod_mem _ _ _ (by decide))
      refine ⟨?_, ?_⟩
      · unfold padRightTo
        refine nonMarkerB_append_lit _ _ ?_
        exact locations_address_take_safe _ (getD_mod_mem _ _ _ (by decide))
      refine ⟨?_, ?_⟩
      · refine nonMarkerB_append_lit _ _ ?_
        apply safeHeadB_append
        apply safeHeadB_append
        exact locations_address_upper_safe _ (getD_mod_mem _ _ _ (by decide))
      refine ⟨?_, ?_⟩
      · decide
      refine ⟨?_, ?_⟩
      · decide
      refine ⟨?_, ?_⟩
      · refine nonMarkerB_append_lit _ _ ?_
        apply safeHeadB_append
        unfold padRightTo
        apply safeHeadB_append
        exact locations_city_safe _ (getD_mod_mem _ _ _ (by decide))
      refine ⟨?_, ?_⟩
      · refine nonMarkerB_append_lit _ _ ?_
        repeat apply safeHeadB_append
        decide
      refine ⟨?_, ?_⟩
      · decide
      refine ⟨?_, ?_⟩
      · decide
      refine ⟨?_, ?_⟩
      · refine nonMarkerB_append_lit _ _ ?_
        repeat apply safeHeadB_append
        decide
      refine ⟨?_, ?_⟩
      · refine nonMarkerB_append_lit _ _ ?_
        repeat apply safeHeadB_append
        decide
      refine ⟨?_, ?_⟩
      · refine nonMarkerB_append_lit _ _ ?_
        repeat apply safeHeadB_append
        decide
      refine ⟨?_, ?_⟩
      · decide
      exact Or.inl (by decide)
  · simp only [GenerateVestaRecord, GenerationContext.NextCallNumber,
      GenerationContext.RandomPhoneNumber, GenerationContext.RandomLocation,
      GenerationContext.RandomCarrier, GenerationContext.RandomAgent,
      RandomDuration_unfold, GenerationContext.intn, GenerationContext.floatRaw,
      randIntn, randNext, randFloatRaw, generateSIPCallID, hloc, hcar]
    unfold vestaSegment
    rw [List.foldl_cons, vestaStep_content now₂ _ _ (by decide) (by decide)]
    refine vesta_fold_flush now₂ _ ?_ _ ?_
    · -- the call-events line
      refine ⟨ne_of_firstCharNe _ _ '-' ?_ (by decide), ?_⟩
      · repeat apply firstCharNe_append
        decide
      -- the ALI header
      refine ⟨⟨by decide, by decide⟩, ?_⟩
      -- the ALI line
      refine ⟨ne_of_firstCharNe _ _ '-' ?_ (by decide), ?_⟩
      · repeat apply firstCharNe_append
        apply fpd_firstCharNe_dash
        exact ani_firstCharNe_dash _ _ _
      -- the SIP header
      refine ⟨⟨by decide, by decide⟩, ?_⟩
      -- the SIP call id
      refine ⟨⟨ne_of_data_length _ _ ?_, ne_of_data_length _ _ ?_⟩, ?_⟩
      · rw [data_append, List.length_append, sipIDDraws_length]
        decide
      · rw [data_append, List.length_append, sipIDDraws_length]
        decide
      -- the separator
      rfl
    · decide

/-- A concrete synthetic context (`generator.New` for a viper endpoint
builds exactly this, with seed 0). -/
def c4Ctx : GenerationContext := NewGenerationContext "sys1" "Default PSAP" 0 {}

set_option maxHeartbeats 1000000 in
/-- C4 counterexample: under the all-zero draw stream the agent coin
lands in the 70% branch and the generated viper record re-parses into
two blocks (a `cdr` block and an `agent` block), not the single block
the claim asserts. -/
theorem c4_single_block_counterexample :
    (viperSegment {} (GenerateViperRecord zeroStream {} c4Ctx).1.lines).map
        CDRRecord.type = ["cdr", "agent"] ∧
    ¬ (viperSegment {} (GenerateViperRecord zeroStream {} c4Ctx).1.lines).length = 1 := by
  have hmap : (viperSegment {} (GenerateViperRecord zeroStream {} c4Ctx).1.lines).map
      CDRRecord.type = ["cdr", "agent"] := by
    simp only [c4Ctx, NewGenerationContext, GenerateViperRecord,
      GenerationContext.NextCallNumber, GenerationContext.RandomPhoneNumber,
      GenerationContext.RandomLocation, GenerationContext.RandomCarrier,
      GenerationContext.RandomAgent, RandomDuration_unfold, GenerationContext.intn,
      GenerationContext.floatRaw, GenerationContext.agentCoin, randIntn, randNext,
      randFloatRaw, randAgentCoin, generateAgentBlock, zeroStream]
    split
    case isTrue h =>
      simp only [List.cons_append, List.nil_append]
      unfold viperSegment
      rw [List.foldl_cons, viperStep_cdr_begin ({} : GoTime) _ _ (cdrBegin_line_pref _) rfl]
      refine fold_CdrThenAgent ({} : GoTime) _ ?_ _ rfl
      -- line 2: system id
      refine Or.inl ⟨?_, ?_⟩
      · exact nonMarkerB_append_lit _ _ (by decide)
      -- line 3: incoming call
      refine Or.inl ⟨?_, ?_⟩
      · refine nonMarkerB_append_lit _ _ ?_
        repeat apply safeHeadB_append
        decide
      -- line 4: trunk group
      refine Or.inl ⟨?_, ?_⟩
      · exact nonMarkerB_append_lit _ _ (by decide)
      -- line 5: call presented
      refine Or.inl ⟨?_, ?_⟩
      · decide
      -- line 6: ANI
      refine Or.inl ⟨?_, ?_⟩
      · refine nonMarkerB_append_lit _ _ ?_
        repeat apply safeHeadB_append
        decide
      -- line 7: initial ALI request
      refine Or.inl ⟨?_, ?_⟩
      · exact nonMarkerB_append_lit _ _ (by decide)
      -- line 8: external call identifier
      refine Or.inl ⟨?_, ?_⟩
      · refine nonMarkerB_append_lit _ _ ?_
        repeat apply safeHeadB_append
        decide
      -- line 9: call connected
      refine Or.inl ⟨?_, ?_⟩
      · decide
      -- line 10: routing queue
      refine Or.inl ⟨?_, ?_⟩
      · exact nonMarkerB_append_lit _ _ (by decide)
      -- line 11: initial ALI response
      refine Or.inl ⟨?_, ?_⟩
      · decide
      -- line 12: caller disconnected (duration-stamped)
      refine Or.inl ⟨?_, ?_⟩
      · exact nonMarkerB_append_lit _ _ (duration_base_safeHead _)
      -- line 13: call terminated
      refine Or.inl ⟨?_, ?_⟩
      · exact nonMarkerB_append_lit _ _ (duration_shift_safeHead _)
      -- line 14: call completed
      refine Or.inl ⟨?_, ?_⟩
      · exact nonMarkerB_append_lit _ _ (duration_shift_safeHead _)
      -- line 15: blank
      refine Or.inl ⟨?_, ?_⟩
      · decide
      -- line 16: initial ALI banner
      refine Or.inl ⟨?_, ?_⟩
      · decide
      -- line 17: blank
      refine Or.inl ⟨?_, ?_⟩
      · decide
      -- line 18: ALI phone header
      refine Or.inl ⟨?_, ?_⟩
      · refine nonMarkerB_append_lit _ _ ?_
        repeat apply safeHeadB_append
        decide
      -- line 19: carrier name
      refine Or.inl ⟨?_, ?_⟩
      · refine nonMarkerB_append_lit _ _ ?_
        exact carriers_name_safe _ (getD_mod_mem _ _ _ (by decide))
      -- line 20: padded address prefix
      refine Or.inl ⟨?_, ?_⟩
      · unfold padRightTo
        refine nonMarkerB_append_lit _ _ ?_
        exact locations_address_take_safe _ (getD_mod_mem _ _ _ (by decide))
      -- line 21: uppercased address with sector
      refine Or.inl ⟨?_, ?_⟩
      · refine nonMarkerB_append_lit _ _ ?_
        apply safeHeadB_append
        apply safeHeadB_append
        exact locations_address_upper_safe _ (getD_mod_mem _ _ _ (by decide))
      -- line 22: blank
      refine Or.inl ⟨?_, ?_⟩
      · decide
      -- line 23: spaces
      refine Or.inl ⟨?_, ?_⟩
      · decide
      -- line 24: city and ESN
      refine Or.inl ⟨?_, ?_⟩
      · refine nonMarkerB_append_lit _ _ ?_
        apply safeHeadB_append
        unfold padRightTo
        apply safeHeadB_append
        exact locations_city_safe _ (getD_mod_mem _ _ _ (by decide))
      -- line 25: carrier code / PSAP / POS
      refine Or.inl ⟨?_, ?_⟩
      · refine nonMarkerB_append_lit _ _ ?_
        repeat apply safeHeadB_append
        decide
      -- line 26: spaces
      refine Or.inl ⟨?_, ?_⟩
      · decide
      -- line 27: spaces
      refine Or.inl ⟨?_, ?_⟩
      · decide
      -- line 28: P# phone
      refine Or.inl ⟨?_, ?_⟩
      · refine nonMarkerB_append_lit _ _ ?_
        repeat apply safeHeadB_append
        decide
      -- line 29: UNC accuracy
      refine Or.inl ⟨?_, ?_⟩
      · refine nonMarkerB_append_lit _ _ ?_
        repeat apply safeHeadB_append
        decide
      -- line 30: coordinates
      refine Or.inl ⟨?_, ?_⟩
      · refine nonMarkerB_append_lit _ _ ?_
        repeat apply safeHeadB_append
        decide
      -- line 31: blank
      refine Or.inl ⟨?_, ?_⟩
      · decide
      -- line 32: CDR END marker
      refine Or.inr ⟨Or.inl (by decide), ?_⟩
      -- separator blank between the blocks
      refine Or.inl ⟨?_, ?_⟩
      · decide
      -- agent line 1: AGENT BEGIN marker
      refine Or.inr ⟨?_, ?_⟩
      · exact agentBegin_line _
      -- agent line 2: on call
      refine ⟨?_, ?_⟩
      · refine nonMarkerB_append_lit _ _ ?_
        repeat apply safeHeadB_append
        decide
      -- agent line 3: direction
      refine ⟨?_, ?_⟩
      · decide
      -- agent line 4: route
      refine ⟨?_, ?_⟩
      · exact nonMarkerB_append_lit _ _ (by decide)
      -- agent line 5: vipernode
      refine ⟨?_, ?_⟩
      · decide
      -- agent line 6: agent identity
      refine ⟨?_, ?_⟩
      · refine nonMarkerB_append_lit _ _ ?_
        repeat apply safeHeadB_append
        decide
      -- agent line 7: psap id
      refine ⟨?_, ?_⟩
      · refine nonMarkerB_append_lit _ _ ?_
        repeat apply safeHeadB_append
        decide
      -- agent line 8: pos / stn
      refine ⟨?_, ?_⟩
      · refine nonMarkerB_append_lit _ _ ?_
        repeat apply safeHeadB_append
        decide
      -- agent line 9: AGENT END marker
      exact Or.inr (by decide)
    case isFalse h =>
      exact absurd (by decide) h
  refine ⟨hmap, ?_⟩
  intro hlen
  have hlm := congrArg List.length hmap
  rw [List.length_map, hlen] at hlm
  exact absurd hlm (by decide)

/-- Witness: the block-structure theorem applied at the concrete context
`c4Ctx` (whose pools are the defaults) under the all-zero stream. -/
theorem c4_generated_record_blocks_witness :
    c4Ctx.locationPool = defaultLocations ∧
    c4Ctx.carrierPool = defaultCarriers ∧
    (((viperSegment {} (GenerateViperRecord zeroStream {} c4Ctx).1.lines).map
          CDRRecord.type = ["cdr"] ∨
        (viperSegment {} (GenerateViperRecord zeroStream {} c4Ctx).1.lines).map
          CDRRecord.type = ["cdr", "agent"]) ∧
      (vestaSegment {} (GenerateVestaRecord zeroStream {} c4Ctx).1.lines).map
        CDRRecord.type = ["cdr"]) :=
  ⟨rfl, rfl, c4_generated_record_blocks zeroStream {} {} c4Ctx rfl rfl⟩
